import Mathlib

/-!
Verification development for the Query Management Agent repository.

The pandas-backed ticket store (`backend/table_db.py`) is modelled as a
`Table` of rows of `Value` cells; ticket dictionaries (`row.to_dict()`)
are association lists.  All definitions are shallow embeddings of the
Python source; external collaborators (Azure OpenAI, SMTP, the user.json
roster, the PDF renderer) are supplied as oracle fields of an `Env`
record, mirroring the spec's "interfaces only" collaborators.
-/

namespace QMA

/-- A cell of the tabular store: a string, a boolean, an integer, or a
missing value (Python `None` / pandas `NaN`). -/
inductive Value where
  | str (s : String)
  | bool (b : Bool)
  | int (n : Int)
  | na
deriving DecidableEq, Repr

/-- Python `str(x)` / pandas `astype(str)` on a cell: `str(True) = "True"`,
`str(nan) = "nan"`. -/
def Value.toStr : Value → String
  | .str s => s
  | .bool b => if b then "True" else "False"
  | .int n => toString n
  | .na => "nan"

/-- Python truthiness of a cell.  Note `float("nan")` is truthy in Python,
so `.na` (which models pandas `NaN`) is truthy. -/
def Value.truthy : Value → Bool
  | .str s => !(s == "")
  | .bool b => b
  | .int n => !(n == 0)
  | .na => true

/-- Python `str(x)` of an optional cell (`str(None) = "None"`). -/
def pyStrOpt : Option Value → String
  | none => "None"
  | some v => v.toStr

/-! Structural (kernel-reducible) versions of the Python string methods
the source uses; each maps directly onto its `str` counterpart. -/

/-- Python `str.lower()`. -/
def pyLower (s : String) : String := String.mk (s.data.map Char.toLower)

/-- Python `str.upper()`. -/
def pyUpper (s : String) : String := String.mk (s.data.map Char.toUpper)

/-- Python `str.strip()` (leading and trailing whitespace). -/
def pyStrip (s : String) : String :=
  String.mk (((s.data.dropWhile Char.isWhitespace).reverse.dropWhile Char.isWhitespace).reverse)

/-- Python slicing `s[:n]`. -/
def pyTake (s : String) (n : Nat) : String := String.mk (s.data.take n)

/-- Python slicing `s[n:]`. -/
def pyDrop (s : String) (n : Nat) : String := String.mk (s.data.drop n)

/-- Python `str.startswith`. -/
def pyStartsWith (s pre : String) : Bool := pre.data.isPrefixOf s.data

/-- One fuelled pass of `str.replace` (left-to-right, non-overlapping). -/
def replaceAux (pattern repl : List Char) : Nat → List Char → List Char
  | 0, l => l
  | _ + 1, [] => []
  | fuel + 1, c :: cs =>
    if pattern.isPrefixOf (c :: cs) && !pattern.isEmpty then
      repl ++ replaceAux pattern repl fuel ((c :: cs).drop pattern.length)
    else c :: replaceAux pattern repl fuel cs

/-- Python `str.replace(pat, rep)` (all occurrences). -/
def pyReplace (s pat rep : String) : String :=
  String.mk (replaceAux pat.data rep.data (s.data.length + 1) s.data)

/-- A sheet of the Excel store: a column-name header and rows of cells
(pandas keeps one global column list for every row). -/
structure Table where
  cols : List String
  rows : List (List Value)
deriving DecidableEq, Repr

/-- Index of a column name in the header (first occurrence). -/
def colIndex : List String → String → Option Nat
  | [], _ => none
  | c :: cs, name => if c = name then some 0 else (colIndex cs name).map (· + 1)

/-- Whether a column is present (`col in df.columns`). -/
def hasCol (cols : List String) (c : String) : Bool :=
  (colIndex cols c).isSome

/-- Read a cell by column name (missing column or short row reads as NaN). -/
def getCell (cols : List String) (row : List Value) (c : String) : Value :=
  match colIndex cols c with
  | some i => row.getD i Value.na
  | none => Value.na

/-- Write a cell by column name (no-op when the column is absent). -/
def setCellRow (cols : List String) (row : List Value) (c : String) (v : Value) : List Value :=
  match colIndex cols c with
  | some i => row.set i v
  | none => row

/-- An association-list view of a row, as produced by `row.to_dict()`. -/
abbrev Dict := List (String × Value)

/-- Python `dict.get(k)`. -/
def dictGet (d : Dict) (k : String) : Option Value :=
  (List.find? (fun kv => kv.1 == k) d).map (·.2)

/-- Python `dict.get(k, default)`. -/
def dictGetD (d : Dict) (k : String) (default : Value) : Value :=
  (dictGet d k).getD default

/-- Model of `backend/table_db.py::ensure_required_columns` — add a missing column
with a default value for every row. -/
def addColumn (t : Table) (c : String) (d : Value) : Table :=
  if hasCol t.cols c then t
  else { cols := t.cols ++ [c], rows := t.rows.map (fun r => r ++ [d]) }

/-- From `backend/table_db.py` lines 108-118: add the utility columns
`Ticket Updated Date` (NA), `Auto Solved` (False) and `AI Response` ("")
when absent. -/
def ensure_required_columns (t : Table) : Table :=
  addColumn (addColumn (addColumn t "Ticket Updated Date" Value.na)
    "Auto Solved" (Value.bool false)) "AI Response" (Value.str "")

/-- From `backend/table_db.py` lines 165-174: field-name alias map for backward
compatibility; names not in the map stand for themselves. -/
def field_map (f : String) : String :=
  if f = "Team Name" then "Assigned Team"
  else if f = "Person Name" then "User Name"
  else if f = "Person ID" then "User ID"
  else if f = "Ticket Create Date" then "Creation Date"
  else if f = "Ticket Priority" then "Priority"
  else f

/-- The row mask of `update_multiple_fields`:
`df["Ticket ID"].astype(str).str.strip() == str(ticket_id).strip()`. -/
def rowMatchesId (cols : List String) (searchId : String) (row : List Value) : Bool :=
  pyStrip (getCell cols row "Ticket ID").toStr == searchId

/-- The per-field update loop of `update_multiple_fields` (lines 176-179):
each update is alias-resolved and written only when the column exists. -/
def applyFields (cols : List String) (updates : List (String × Value)) (row : List Value) : List Value :=
  updates.foldl
    (fun r fv =>
      if hasCol cols (field_map fv.1) then setCellRow cols r (field_map fv.1) fv.2 else r)
    row

/-- One row's transformation under a successful `update_multiple_fields`
call: matched rows get the alias-resolved updates and then the forced
`Ticket Updated Date := now` stamp (line 181); other rows are untouched. -/
def umfRow (cols : List String) (now searchId : String) (updates : List (String × Value))
    (row : List Value) : List Value :=
  if rowMatchesId cols searchId row then
    setCellRow cols (applyFields cols updates row) "Ticket Updated Date" (Value.str now)
  else row

/-- Model of `backend/table_db.py::update_multiple_fields` (lines 150-186).  The
store is read, the utility columns are ensured, the ticket is located by
stripped string comparison of `Ticket ID`; with no match the function
returns False without saving; otherwise the updates are applied to all
matched rows, the updated-date stamp is forced, and the whole table is
saved.  A missing `Ticket ID` column raises a KeyError that the blanket
handler turns into False with no save. -/
def update_multiple_fields (now : String) (ticket_id : String)
    (updates : List (String × Value)) (t : Table) : Bool × Table :=
  let df := ensure_required_columns t
  if !(hasCol df.cols "Ticket ID") then (false, t)
  else
    let searchId := pyStrip ticket_id
    if !(df.rows.any (rowMatchesId df.cols searchId)) then (false, t)
    else
      (true, { cols := df.cols, rows := df.rows.map (umfRow df.cols now searchId updates) })

/-- The value written to a column `c` by the update loop: the last update
whose alias-resolved field name is `c` wins (dict/loop order). -/
def lastWrite (updates : List (String × Value)) (c : String) : Option Value :=
  ((updates.filter (fun fv => field_map fv.1 == c)).getLast?).map (·.2)

/-- All boolean well-formedness facts the claim theorems assume of the
ticket sheet: the standard columns are present. -/
def stdCols (t : Table) : Bool :=
  hasCol t.cols "Ticket ID" && hasCol t.cols "Ticket Updated Date" &&
  hasCol t.cols "Auto Solved" && hasCol t.cols "AI Response" &&
  hasCol t.cols "Ticket Status" && hasCol t.cols "Admin Review Needed" &&
  hasCol t.cols "User Name"

/-- Every row has exactly one cell per column. -/
def wfRows (t : Table) : Bool :=
  t.rows.all (fun r => r.length == t.cols.length)

/-! ### String helpers mirroring the Python primitives used by the source -/

/-- Literal substring test (`needle in hay` on the char level); used to
model `str.contains` / Python's `in` for the plain references the
repository produces (no regex metacharacters occur in them). -/
def subAt (needle : List Char) : List Char → Bool
  | [] => needle.isEmpty
  | c :: rest => needle.isPrefixOf (c :: rest) || subAt needle rest

/-- Case-insensitive substring containment, modelling
`df[key].astype(str).str.contains(value, case=False, na=False)`. -/
def containsCI (hay needle : String) : Bool :=
  subAt (pyLower needle).data (pyLower hay).data

/-- Case-sensitive substring containment (Python `needle in hay`). -/
def containsSub (hay needle : String) : Bool :=
  subAt needle.data hay.data

/-- Python `str.rstrip()` (trailing whitespace removal). -/
def pyRstrip (s : String) : String :=
  String.mk ((s.data.reverse.dropWhile Char.isWhitespace).reverse)

/-- Python `str.lstrip("-")`. -/
def lstripDash (s : String) : String :=
  String.mk (s.data.dropWhile (fun c => c = '-'))

/-- Python `str.isdigit()` (ASCII digits; False on the empty string). -/
def pyIsdigit (s : String) : Bool :=
  !(s == "") && s.data.all Char.isDigit

/-! ### `backend/table_db.py::search_invoices` -/

/-- Lines 121-147: sequentially filter the invoice sheet by each supplied
parameter; string parameters use case-insensitive substring match on the
stringified cell, other parameters use exact equality; returns the rows
as dicts. -/
def search_invoices (inv : Table) (params : List (String × Value)) : List Dict :=
  let rows := params.foldl
    (fun rs kv =>
      if hasCol inv.cols kv.1 then
        rs.filter (fun row =>
          match kv.2 with
          | Value.str v => containsCI (getCell inv.cols row kv.1).toStr v
          | v => getCell inv.cols row kv.1 == v)
      else rs)
    inv.rows
  rows.map (fun r => inv.cols.zip r)

/-! ### Approval Token Codec
(`agents/ticket_agent.py::generate_approval_token`, lines 156-160, and
`backend/app.py::validate_token`, lines 600-603).  The SHA-256 digest is
an external one-way primitive; it enters the model as the `hash` function
parameter, and the claim about distinct tickets is proved under the
injectivity hypothesis that models SHA-256's collision resistance. -/

/-- Computes `hashlib.sha256(f"{ticket_id}:{secret}".encode()).hexdigest()`. -/
def generate_approval_token (hash : String → String) (secret ticket_id : String) : String :=
  hash (ticket_id ++ ":" ++ secret)

/-- Model of `validate_token(ticket_id, token)`: recompute the expected token and
compare for exact equality.  `token` is `request.args.get("token")`, so a
missing parameter (`none`) never equals the expected string. -/
def validate_token (hash : String → String) (secret ticket_id : String)
    (token : Option String) : Bool :=
  token == some (generate_approval_token hash secret ticket_id)

/-! ### Invoice-reference extraction (`agents/ticket_agent.py` 84-143) -/

/-- Lines 100-113: `normalize_invoice_reference` on the stringified value
("inv1016" becomes "INV-1016", bare digits gain the prefix). -/
def normalize_invoice_reference (v : String) : Option String :=
  if v = "" then none
  else
    let cleaned := pyUpper (pyStrip v)
    if cleaned = "" then none
    else
      let cleaned := pyReplace (pyReplace (pyReplace cleaned "INVOICE" "INV") " " "") "#" ""
      if pyStartsWith cleaned "INV" && !(pyStartsWith cleaned "INV-") then
        let remainder := lstripDash (pyDrop cleaned 3)
        some (if remainder = "" then "INV" else "INV-" ++ remainder)
      else if pyIsdigit cleaned then some ("INV-" ++ cleaned)
      else some cleaned

/-- Word character for the regex `\b` boundary (`[A-Za-z0-9_]`). -/
def wordChar (c : Char) : Bool := c.isAlphanum || c = '_'

/-- The separator class `[\s\-#]` of `INVOICE_REGEX`. -/
def invSep (c : Char) : Bool := c.isWhitespace || c = '-' || c = '#'

/-- Maximal leading run of `[A-Za-z0-9]` characters and the rest. -/
def alnumRun : List Char → List Char × List Char
  | [] => ([], [])
  | c :: cs =>
    if c.isAlphanum then
      let p := alnumRun cs
      (c :: p.1, p.2)
    else ([], c :: cs)

/-- The boundary `\b` holds after a match iff the next character is absent or non-word
(the matched run always ends in a word character). -/
def boundaryAfter : List Char → Bool
  | [] => true
  | c :: _ => !(wordChar c)

/-- Attempt `INVOICE_REGEX = \bINV[\s\-#]?[A-Z0-9]+\b` (IGNORECASE) at the
current position; returns the matched text and the remaining input.  The
optional separator branch and the no-separator branch reproduce the
regex's backtracking (a separator is only kept when an alphanumeric run
follows it). -/
def invMatchAt (prev : Option Char) : List Char → Option (List Char × List Char)
  | a :: b :: c :: rest =>
    if (match prev with | none => true | some p => !(wordChar p)) &&
        a.toUpper = 'I' && b.toUpper = 'N' && c.toUpper = 'V' then
      match rest with
      | d :: rest2 =>
        if invSep d then
          let p := alnumRun rest2
          if !p.1.isEmpty && boundaryAfter p.2 then some (a :: b :: c :: d :: p.1, p.2)
          else none
        else
          let p := alnumRun (d :: rest2)
          if !p.1.isEmpty && boundaryAfter p.2 then some (a :: b :: c :: p.1, p.2)
          else none
      | [] => none
    else none
  | _ => none

/-- Left-to-right non-overlapping scan (`finditer`) for `INVOICE_REGEX`;
the fuel argument bounds the recursion by the input length. -/
def invScan : Nat → Option Char → List Char → List String
  | 0, _, _ => []
  | _ + 1, _, [] => []
  | fuel + 1, prev, c :: cs =>
    match invMatchAt prev (c :: cs) with
    | some m => String.mk m.1 :: invScan fuel m.1.getLast? m.2
    | none => invScan fuel (some c) cs

/-- All `INVOICE_REGEX` matches of a description. -/
def invoiceRegexMatches (s : String) : List String :=
  invScan (s.data.length + 1) none s.data

/-- Longest prefix of the captured `[A-Z0-9-]+` run after which `\b`
holds (the regex backtracks the greedy group until the boundary is
satisfied); `next` is the character following the run. -/
def shrinkToBoundary (revRun : List Char) (next : Option Char) : List Char :=
  match revRun with
  | [] => []
  | c :: rest =>
    if (match next with | none => true | some n => !(wordChar n && wordChar c) && (wordChar n || wordChar c)) then
      (c :: rest).reverse
    else shrinkToBoundary rest (some c)

/-- Character class `[A-Z0-9-]` (IGNORECASE) of the generic regex group. -/
def genClass (c : Char) : Bool := c.isAlphanum || c = '-'

/-- Maximal leading run of `genClass` characters and the rest. -/
def genRun : List Char → List Char × List Char
  | [] => ([], [])
  | c :: cs =>
    if genClass c then
      let p := genRun cs
      (c :: p.1, p.2)
    else ([], c :: cs)

/-- Case-insensitive literal prefix test. -/
def litPrefixCI (lit : List Char) (l : List Char) : Option (List Char) :=
  match lit, l with
  | [], rest => some rest
  | _ :: _, [] => none
  | a :: as', b :: bs => if a.toLower = b.toLower then litPrefixCI as' bs else none

/-- After the literal `Invoice`, the optional `(?:\s+(?:Number|No\.|#))?`
part; returns the rest of the input after the consumed portion. -/
def genOptWord (l : List Char) : List Char :=
  let ws := l.takeWhile Char.isWhitespace
  if ws.isEmpty then l
  else
    let rest := l.dropWhile Char.isWhitespace
    match litPrefixCI "number".data rest with
    | some r => r
    | none =>
      match litPrefixCI "no.".data rest with
      | some r => r
      | none =>
        match rest with
        | '#' :: r => r
        | _ => l

/-- Attempt the generic pattern
`\bInvoice(?:\s+(?:Number|No\.|#))?\s*[:#-]?\s*([A-Z0-9-]+)\b` at the
current position; returns the captured group and the rest of the input. -/
def genMatchAt (prev : Option Char) (l : List Char) : Option (List Char × List Char) :=
  if !(match prev with | none => true | some p => !(wordChar p)) then none
  else
    match litPrefixCI "invoice".data l with
    | none => none
    | some rest0 =>
      let rest1 := genOptWord rest0
      let rest2 := rest1.dropWhile Char.isWhitespace
      let rest3 :=
        match rest2 with
        | c :: r => if c = ':' || c = '#' || c = '-' then r else rest2
        | [] => rest2
      let rest4 := rest3.dropWhile Char.isWhitespace
      let p := genRun rest4
      let kept := shrinkToBoundary p.1.reverse p.2.head?
      if kept.isEmpty then none
      else some (kept, p.1.drop kept.length ++ p.2)

/-- Left-to-right non-overlapping scan for the generic invoice regex,
collecting the captured group of each match. -/
def genScan : Nat → Option Char → List Char → List String
  | 0, _, _ => []
  | _ + 1, _, [] => []
  | fuel + 1, prev, c :: cs =>
    match genMatchAt prev (c :: cs) with
    | some m => String.mk m.1 :: genScan fuel m.1.getLast? m.2
    | none => genScan fuel (some c) cs

/-- All captured groups of `GENERIC_INVOICE_REGEX` over a description. -/
def genericRegexMatches (s : String) : List String :=
  genScan (s.data.length + 1) none s.data

/-- Order-preserving de-duplication (the `seen` set of lines 137-143). -/
def dedupFirstAux [DecidableEq α] (seen : List α) : List α → List α
  | [] => []
  | a :: rest =>
    if seen.contains a then dedupFirstAux seen rest
    else a :: dedupFirstAux (a :: seen) rest

/-- First-occurrence de-duplication (also models pandas `unique()`). -/
def dedupFirst [DecidableEq α] (l : List α) : List α :=
  dedupFirstAux [] l

/-- The structured field names probed for invoice references. -/
def INVOICE_FIELD_HINTS : List String :=
  ["Invoice Number", "Invoice", "Invoice Reference", "Reference Invoice", "Invoice ID", "Invoice #"]

/-- Model of `agents/ticket_agent.py::extract_invoice_candidates` (116-143):
normalized references from the hint fields (plain `dict.get`), then both
regex passes over the description, de-duplicated in order. -/
def extract_invoice_candidates (ticket : Dict) : List String :=
  let fromFields := INVOICE_FIELD_HINTS.filterMap (fun field =>
    match dictGet ticket field with
    | some v => if v.truthy then normalize_invoice_reference v.toStr else none
    | none => none)
  let description := pyStrOpt (some (dictGetD ticket "Description" (Value.str "")))
  let fromInv := (invoiceRegexMatches description).filterMap normalize_invoice_reference
  let fromGen := (genericRegexMatches description).filterMap normalize_invoice_reference
  dedupFirst (fromFields ++ fromInv ++ fromGen)

/-! ### Collaborator environment, notifications and model protocol -/

/-- One attempted notification (`email_service.send_email` records the
recipient, subject, body and optional attachment path; delivery success
is the environment's `sendOk`). -/
structure Email where
  to_email : String
  subject : String
  body : String
  attachment : Option String := none
deriving DecidableEq, Repr

/-- A roster entry of `user.json` as read by `table_db`'s (dead)
intelligent assignment: role, name, and a team that may be a string or a
list. -/
inductive TeamField where
  | str (s : String)
  | list (l : List String)
deriving DecidableEq, Repr

structure RosterUser where
  name : String
  role : String
  team : TeamField := TeamField.str ""
deriving DecidableEq, Repr

/-- Arguments of the `resolve_ticket` tool call after `json.loads`;
optional fields mirror `args.get(...)` with the handler's defaults. -/
structure ResolveArgs where
  ai_response : Option String := none
  auto_solved : Option Bool := none
  closure_type : String
  document_type : Option String := none
deriving DecidableEq, Repr

/-- Arguments of the `reassign_ticket_and_notify` tool call. -/
structure ReassignArgs where
  target_team : String
  reason : Option String := none
  ai_response : Option String := none
deriving DecidableEq, Repr

/-- One tool call of an assistant turn.  `badJson` stands for arguments on
which `json.loads` (or a required-key access) raises. -/
inductive ToolCall where
  | search (params : List (String × Value))
  | resolve (args : ResolveArgs)
  | reassign (args : ReassignArgs)
  | badJson (msg : String)
deriving DecidableEq, Repr

/-- One reply of the chat-completion endpoint: the call itself may raise,
or the assistant answers with plain content (possibly `None`) and no tool
calls, or with a list of tool calls. -/
inductive ModelResponse where
  | raise (msg : String)
  | text (content : Option String)
  | calls (toolCalls : List ToolCall)
deriving DecidableEq, Repr

/-- The document kinds of `document_generator`; `docKindOf` mirrors the
`if/elif/else` dispatch of lines 510-524 (anything other than the two
named kinds falls back to `invoice_copy`). -/
inductive DocKind where
  | invoice_copy
  | payment_confirmation
  | invoice_details
deriving DecidableEq, Repr

def docKindOf (document_type : String) : DocKind :=
  if document_type = "payment_confirmation" then DocKind.payment_confirmation
  else if document_type = "invoice_details" then DocKind.invoice_details
  else DocKind.invoice_copy

/-- The external collaborators, exactly the interfaces the spec declares
out of scope: the language model (`oracle`, keyed by ticket id and turn),
the SMTP transport (`sendOk`), the user directory (`emailForName`,
`managerFor` over `user.json`), the PDF renderer (`render`, returning a
written file path or `none`), configuration (secret, base URL, clock),
and the read-only invoice sheet. -/
structure Env where
  hash : String → String
  secret : String
  baseUrl : String
  today : String
  now : String
  emailForName : Value → Option String
  managerFor : Option Value → Option (String × String)
  render : DocKind → Dict → Option String
  documentsAvailable : Bool
  sendOk : Bool
  invoices : Table
  oracle : String → Nat → ModelResponse
  usersFileExists : Bool
  usersFile : List RosterUser

/-- Mutable world state threaded through the agent: the ticket sheet, the
notifications attempted so far, and the files existing on disk (the
renderer creates them; nothing in the source ever deletes them). -/
structure AgentState where
  table : Table
  emails : List Email := []
  files : List String := []
deriving DecidableEq, Repr

/-- Result of running a Python body: a value, or a propagated exception. -/
inductive PyResult (α : Type) where
  | ok (a : α)
  | exn (msg : String)
deriving DecidableEq, Repr

/-! ### `agents/ticket_agent.py` requester / field lookup helpers -/

/-- Model of `_get_ticket_field` (145-153): fetch a field ignoring key casing and
surrounding spaces; empty keys never match. -/
def get_ticket_field (ticket : Dict) (target : String) : Option Value :=
  if target = "" then none
  else
    let normalized := pyLower (pyStrip target)
    (ticket.find? (fun kv => !(kv.1 == "") && pyLower (pyStrip kv.1) == normalized)).map (·.2)

def EMAIL_FIELDS : List String :=
  ["Requestor Email ID", "Requestor Email", "Requester Email",
   "Submitter Email", "Customer Email", "Email"]

def BAD_EMAIL_STRINGS : List String := ["", "nan", "none", "null", "n/a"]

/-- First truthy value of a list of candidate lookups (Python `or` chain
over optional ticket fields). -/
def firstTruthy : List (Option Value) → Option Value
  | [] => none
  | some v :: rest => if v.truthy then some v else firstTruthy rest
  | none :: rest => firstTruthy rest

/-- Model of `get_submitter_email` (163-204): explicit requester-email columns
first, then requester-name directory lookup, then the internal employee
fallback. -/
def get_submitter_email (env : Env) (ticket : Dict) : Option String :=
  let fromFields := EMAIL_FIELDS.filterMap (fun field =>
    match get_ticket_field ticket field with
    | some raw =>
      if raw.truthy then
        let email := pyStrip raw.toStr
        if !(email == "") && !(BAD_EMAIL_STRINGS.contains (pyLower email)) then some email
        else none
      else none
    | none => none)
  match fromFields.head? with
  | some e => some e
  | none =>
    let fromRequestor :=
      match firstTruthy [get_ticket_field ticket "Requestor",
                         get_ticket_field ticket "Requestor Name",
                         get_ticket_field ticket "Requester Name"] with
      | some rn => env.emailForName rn
      | none => none
    match fromRequestor with
    | some e => some e
    | none =>
      match firstTruthy [get_ticket_field ticket "User Name(Ticket Created By)",
                         dictGet ticket "User Name",
                         dictGet ticket "Assigned To"] with
      | some en => env.emailForName en
      | none => none

/-- Body of the resolution notification of
`send_requester_resolution_email` (44-68); the middle block is the stored
AI response when truthy, else the stock sentence. -/
def resolution_email_body (name aiBlock tid : String) : String :=
  ("Hello " ++ name ++ ",\n\n") ++ aiBlock ++
    ("\n\nTicket ID: " ++ tid ++ "\nStatus: Closed\n\nRegards,\nEY Query Management System\n")

/-- Model of `send_requester_resolution_email(ticket, ai_response)`: resolve the
`User Name` through the directory; without an email nothing is sent and
False is returned; otherwise one notification is attempted. -/
def send_requester_resolution_email (env : Env) (ticket : Dict) (ai_response : Value) :
    List Email × Bool :=
  let requester_name := dictGetD ticket "User Name" (Value.str "there")
  match env.emailForName requester_name with
  | none => ([], false)
  | some em =>
    let tid := (dictGetD ticket "Ticket ID" (Value.str "N/A")).toStr
    let aiBlock :=
      if ai_response.truthy then ai_response.toStr
      else "Your ticket has been processed by the EY Query Management Agent."
    ([{ to_email := em, subject := "Ticket " ++ tid ++ " Resolved",
        body := resolution_email_body requester_name.toStr aiBlock tid }], env.sendOk)

/-! ### Resolution Engine (`agents/ticket_agent.py::TicketAIAgent.process_ticket`) -/

/-- Whether line 126 of `extract_invoice_candidates`
(`description = ticket.get("Description", "") or ""` followed by
`finditer`) raises: the raw `Description` value is truthy but not a
string (e.g. pandas NaN), so `re.finditer` gets a non-string and raises
a TypeError that nothing in `process_ticket` catches. -/
def description_raises (ticket : Dict) : Bool :=
  match dictGet ticket "Description" with
  | some (Value.str _) => false
  | some v => v.truthy
  | none => false

/-- Model of `_resolve_invoice_data_for_document` (337-358): prefer the invoice
cached from an earlier `search_invoices` tool call, else extract
candidate references (which raises on a truthy non-string description)
and query the sheet for each until one matches. -/
def resolve_invoice_data (env : Env) (ticket : Dict) (cached : Option Dict) :
    PyResult (Option Dict) :=
  match cached with
  | some c => PyResult.ok (some c)
  | none =>
    if description_raises ticket then
      PyResult.exn "TypeError: expected string or bytes-like object"
    else
      let candidates := extract_invoice_candidates ticket
      PyResult.ok (candidates.findSome? (fun reference =>
        match search_invoices env.invoices [("Invoice Number", Value.str reference)] with
        | [] => none
        | r :: _ => some r))

/-- The attachment produced in the `with_document` branch (509-524): the
renderer runs only when the generators imported and an invoice record was
resolved; the returned path is a file the generator wrote to disk. -/
def with_document_attachment (env : Env) (ticket : Dict) (lastInv : Option Dict)
    (document_type : String) : PyResult (Option String) :=
  match resolve_invoice_data env ticket lastInv with
  | PyResult.exn m => PyResult.exn m
  | PyResult.ok payload =>
    PyResult.ok (if env.documentsAvailable then
      match payload with
      | some p => env.render (docKindOf document_type) p
      | none => none
    else none)

/-- Manager approval-request body (473-489), with the approve and reject
links embedded verbatim. -/
def approval_email_body (manager_name ticket_id team description ai_response
    approve_link reject_link : String) : String :=
  ("Hello " ++ manager_name ++ ",\n\nTicket " ++ ticket_id ++
    " requires your approval.\n\nTeam: " ++ team ++ "\nRequest: " ++
    pyTake description 200 ++ "...\n\nAI Analysis:\n" ++ ai_response ++
    "\n\nActions:\n→ APPROVE: ") ++ approve_link ++
    "\n→ REJECT: " ++ reject_link ++
    "\n\nBest regards,\nEY Query Management AI Agent\n"

/-- Requester body when the document rendered successfully (528-538). -/
def with_document_success_body (ticket_id ai_response : String) : String :=
  "Dear Requester,\n\nYour request for ticket " ++ ticket_id ++
    " has been processed.\n\n" ++ ai_response ++
    "\n\nWe attached the latest invoice snapshot pulled directly from the EY invoice ledger for your reference.\n\nBest regards,\nEY Query Management Team\n"

/-- Requester body when the PDF export failed (540-552). -/
def with_document_pdf_failed_body (ticket_id : String) (payload : Dict) : String :=
  "Dear Requester,\n\nWe attempted to generate a payment confirmation for ticket " ++
    ticket_id ++ " (invoice " ++ (dictGetD payload "Invoice Number" (Value.str "N/A")).toStr ++
    "), but the PDF export failed.\n\nCurrent ledger status: " ++
    (dictGetD payload "Payment Status" (Value.str "Unknown")).toStr ++
    ".\n\nIf you require an officially stamped confirmation, please reach out to your AP/AR partner and they will provide the formal document.\n\nBest regards,\nEY Query Management Team\n"

/-- Requester body when no invoice data was resolvable or the generators
are unavailable (554-566). -/
def with_document_missing_body (ticket_id ai_response : String) (payload : Option Dict) : String :=
  let fallback_status :=
    match payload with
    | some p => (dictGetD p "Payment Status" (Value.str "Unknown")).toStr
    | none => "Unknown"
  "Dear Requester,\n\nYour request for ticket " ++ ticket_id ++
    " has been reviewed.\n\n" ++ ai_response ++
    "\n\nWe could not retrieve the invoice details needed to create a PDF automatically (current ledger status: " ++
    fallback_status ++
    "). Please contact your AP/AR team if you require an official document.\n\nBest regards,\nEY Query Management Team\n"

/-- Requester body of the simple `without_document` closure (576-586). -/
def without_document_body (ticket_id ai_response : String) : String :=
  "Dear Requester,\n\nYour inquiry regarding ticket " ++ ticket_id ++
    " has been resolved.\n\n" ++ ai_response ++
    "\n\nIf you need further assistance, please create a new ticket.\n\nBest regards,\nEY Query Management Team\n"

/-- Per-branch results of the `resolve_ticket` handler before the common
store-update/notification tail. -/
structure ResolveBranch where
  updates : List (String × Value)
  managerMails : List Email
  recipient : Option String
  attachment : Option String
  email_body : String
deriving Repr

/-- Python `dict.get` over the update dict built by the handler (later
list entries are later insertions; keys here are unique in the source). -/
def listGetLast (l : List (String × Value)) (k : String) : Option Value :=
  (l.reverse.find? (fun kv => kv.1 == k)).map (·.2)

/-- The three `closure_type` branches of the `resolve_ticket` handler
(458-586).  `needs_approval` sends the manager the approval links before
the store update and leaves the requester recipient unset; the other two
branches close the ticket and address the requester. -/
def resolve_branch (env : Env) (ticket : Dict) (ticket_id description : String)
    (lastInv : Option Dict) (closure_type ai_response : String) (auto_solved : Bool)
    (document_type : String) : PyResult ResolveBranch :=
  let base_updates : List (String × Value) :=
    [("Auto Solved", Value.bool auto_solved), ("AI Response", Value.str ai_response),
     ("Ticket Updated Date", Value.str env.today)]
  if closure_type == "needs_approval" then
    PyResult.ok
      { updates := base_updates ++
          [("Ticket Status", Value.str "Pending Manager Approval"),
           ("Admin Review Needed", Value.str "Yes")],
        managerMails :=
          match env.managerFor (dictGet ticket "Assigned Team") with
          | some mgr =>
            let token := generate_approval_token env.hash env.secret ticket_id
            let approve_link := env.baseUrl ++ "/ticket/approve/" ++ ticket_id ++ "?token=" ++ token
            let reject_link := env.baseUrl ++ "/ticket/reject/" ++ ticket_id ++ "?token=" ++ token
            [{ to_email := mgr.2, subject := "[APPROVAL] Ticket " ++ ticket_id,
               body := approval_email_body mgr.1 ticket_id
                 (dictGetD ticket "Assigned Team" (Value.str "N/A")).toStr description
                 ai_response approve_link reject_link }]
          | none => [],
        recipient := none, attachment := none, email_body := ai_response }
  else if closure_type == "with_document" then
    match resolve_invoice_data env ticket lastInv with
    | PyResult.exn m => PyResult.exn m
    | PyResult.ok payload =>
      let attachment :=
        if env.documentsAvailable then
          match payload with
          | some p => env.render (docKindOf document_type) p
          | none => none
        else none
      PyResult.ok
        { updates := base_updates ++ [("Ticket Status", Value.str "Closed")],
          managerMails := [],
          recipient := get_submitter_email env ticket,
          attachment := attachment,
          email_body :=
            if env.documentsAvailable && payload.isSome then
              match attachment, payload with
              | some _, _ => with_document_success_body ticket_id ai_response
              | none, some p => with_document_pdf_failed_body ticket_id p
              | none, none => with_document_missing_body ticket_id ai_response payload
            else with_document_missing_body ticket_id ai_response payload }
  else
    PyResult.ok
      { updates := base_updates ++ [("Ticket Status", Value.str "Closed")],
        managerMails := [],
        recipient := get_submitter_email env ticket,
        attachment := none,
        email_body := without_document_body ticket_id ai_response }

/-- The full `resolve_ticket` handler (437-611): branch effects, the store
update, and the conditional requester notification (sent only when the
update succeeded, a recipient exists, and the closure is not
`needs_approval`); the outcome string is returned in every case. -/
def handleResolve (env : Env) (ticket : Dict) (ticket_id description : String)
    (lastInv : Option Dict) (args : ResolveArgs) (st : AgentState) :
    PyResult String × AgentState :=
  let closure_type := args.closure_type
  let ai_response := args.ai_response.getD "Ticket processed by AI."
  let auto_solved := args.auto_solved.getD true
  let document_type := args.document_type.getD "none"
  match resolve_branch env ticket ticket_id description lastInv closure_type
      ai_response auto_solved document_type with
  | PyResult.exn m => (PyResult.exn m, st)
  | PyResult.ok b =>
    let files' := st.files ++ b.attachment.toList
    let upd := update_multiple_fields env.now ticket_id b.updates st.table
    let status_text :=
      ((listGetLast b.updates "Ticket Status").getD
        (dictGetD ticket "Ticket Status" (Value.str "Open"))).toStr
    let requesterMails : List Email :=
      if upd.1 && b.recipient.isSome && !(closure_type == "needs_approval") then
        [{ to_email := b.recipient.getD "",
           subject := "Ticket " ++ ticket_id ++ " - Update",
           body := pyRstrip b.email_body ++ "\n\nTicket status (AI): " ++ status_text,
           attachment := b.attachment }]
      else []
    (PyResult.ok ("Ticket " ++ ticket_id ++ ": " ++ closure_type),
     { table := upd.2, emails := st.emails ++ b.managerMails ++ requesterMails, files := files' })

def BAD_NAME_STRINGS : List String := ["nan", "none", "n/a", "null"]

/-- Requester body of the reassignment notification (638-648). -/
def reassign_requester_body (ticket_id target_team reason status_text : String) : String :=
  "Dear Requester,\n\nTicket " ++ ticket_id ++ " has been assigned to our " ++
    target_team ++ " billing specialist team.\n\nReason: " ++ reason ++
    "\n\nTicket status (AI): " ++ status_text ++
    "\n\nBest regards,\nEY Query Management System\n"

/-- Assigned-employee body of the reassignment notification (664-676). -/
def reassign_employee_body (user_name ticket_id target_team description reason : String) : String :=
  "Hello " ++ user_name ++ ",\n\nTicket " ++ ticket_id ++ " assigned to " ++
    target_team ++ ".\n\nRequest: " ++ pyTake description 250 ++
    "...\n\nReason: " ++ reason ++
    "\n\nPlease review and take necessary action.\n\nBest regards,\nEY AI Agent\n"

/-- The `reassign_ticket_and_notify` handler (616-688): reassign the team,
reopen the ticket, clear the auto marker, and on a successful update
notify the requester and the assigned employee. -/
def handleReassign (env : Env) (ticket : Dict) (ticket_id description : String)
    (args : ReassignArgs) (st : AgentState) : String × AgentState :=
  let target_team := pyUpper args.target_team
  let reason := args.reason.getD "Billing specialist required"
  let ai_response := args.ai_response.getD ("Reassigned to " ++ target_team)
  let updates : List (String × Value) :=
    [("Assigned Team", Value.str target_team), ("Ticket Status", Value.str "Open"),
     ("Ticket Updated Date", Value.str env.today), ("AI Response", Value.str ai_response),
     ("Auto Solved", Value.bool false)]
  let upd := update_multiple_fields env.now ticket_id updates st.table
  if upd.1 then
    let status_text :=
      ((listGetLast updates "Ticket Status").getD
        (dictGetD ticket "Ticket Status" (Value.str "Open"))).toStr
    let reqMails : List Email :=
      match get_submitter_email env ticket with
      | some e =>
        [{ to_email := e, subject := "Ticket " ++ ticket_id ++ " - Assigned to Specialist",
           body := reassign_requester_body ticket_id target_team reason status_text }]
      | none => []
    let empMails : List Email :=
      match dictGet ticket "User Name" with
      | some un =>
        if un.truthy && !(BAD_NAME_STRINGS.contains (pyLower un.toStr)) then
          match env.emailForName un with
          | some ae =>
            [{ to_email := ae, subject := "[NEW] Ticket " ++ ticket_id ++ " → " ++ target_team,
               body := reassign_employee_body un.toStr ticket_id target_team description reason }]
          | none => []
        else []
      | none => []
    ("Ticket " ++ ticket_id ++ " reassigned to " ++ target_team,
     { table := upd.2, emails := st.emails ++ reqMails ++ empMails, files := st.files })
  else
    ("Reassignment failed", { table := upd.2, emails := st.emails, files := st.files })

/-- Result of dispatching the tool calls of one assistant turn: either the
function returned (or raised), or the turn ended with only transcript
extensions and the loop continues. -/
inductive TurnStep where
  | done (r : PyResult String) (st : AgentState)
  | next (lastInv : Option Dict) (st : AgentState)

/-- The `for tool_call in msg.tool_calls` dispatch (414-688): searches
update the cached invoice and continue; `resolve_ticket` and
`reassign_ticket_and_notify` return from `process_ticket`; arguments on
which `json.loads` raises propagate the exception. -/
def runToolCalls (env : Env) (ticket : Dict) (ticket_id description : String) :
    List ToolCall → Option Dict → AgentState → TurnStep
  | [], lastInv, st => TurnStep.next lastInv st
  | ToolCall.badJson m :: _, _, st => TurnStep.done (PyResult.exn m) st
  | ToolCall.search params :: rest, lastInv, st =>
    let results := search_invoices env.invoices params
    let lastInv' := match results with
      | [] => lastInv
      | r :: _ => some r
    runToolCalls env ticket ticket_id description rest lastInv' st
  | ToolCall.resolve args :: _, lastInv, st =>
    let r := handleResolve env ticket ticket_id description lastInv args st
    TurnStep.done r.1 r.2
  | ToolCall.reassign args :: _, _, st =>
    let r := handleReassign env ticket ticket_id description args st
    TurnStep.done (PyResult.ok r.1) r.2

/-- The bounded conversation loop (399-690): up to `fuel` turns, each one
a model call (which may raise), a plain-text final answer (`None` content
crashes the logging slice, as in the source), or a batch of tool calls. -/
def runTurns (env : Env) (ticket : Dict) (ticket_id description : String) :
    Nat → Nat → Option Dict → AgentState → PyResult String × AgentState
  | 0, _, _, st => (PyResult.ok "Max turns reached without resolution", st)
  | fuel + 1, turn, lastInv, st =>
    match env.oracle ticket_id turn with
    | ModelResponse.raise m => (PyResult.exn m, st)
    | ModelResponse.text none =>
      (PyResult.exn "TypeError: NoneType object is not subscriptable", st)
    | ModelResponse.text (some c) =>
      (PyResult.ok (if c = "" then "No resolution reached." else c), st)
    | ModelResponse.calls tcs =>
      match runToolCalls env ticket ticket_id description tcs lastInv st with
      | TurnStep.done r st' => (r, st')
      | TurnStep.next lastInv' st' => runTurns env ticket ticket_id description fuel (turn + 1) lastInv' st'

/-- Model of `process_ticket` (376-690): the already-closed guard, then the
six-turn conversation loop. -/
def process_ticket (env : Env) (ticket : Dict) (st : AgentState) :
    PyResult String × AgentState :=
  let ticket_id := pyStrOpt (dictGet ticket "Ticket ID")
  let description := pyStrOpt (some (dictGetD ticket "Description" (Value.str "No description provided.")))
  let status := pyLower (pyStrOpt (some (dictGetD ticket "Ticket Status" (Value.str "Open"))))
  if status == "closed" then (PyResult.ok "Ticket is already closed.", st)
  else runTurns env ticket ticket_id description 6 0 none st

/-! ### Batch Runner (`run_on_all_open_tickets`, 692-711) -/

/-- Line 695: the batch selection is only
`df["Ticket Status"].str.lower() != "closed"`; the auto-resolution marker
is not consulted. -/
def batch_eligible (cols : List String) (row : List Value) : Bool :=
  !(pyLower (getCell cols row "Ticket Status").toStr == "closed")

/-- The rows one batch pass will hand to `process_ticket`. -/
def batch_open_selection (t : Table) : List (List Value) :=
  t.rows.filter (batch_eligible t.cols)

/-- Sequential processing of the selected rows; an exception thrown by
`process_ticket` propagates and the remaining rows are never visited. -/
def run_batch_go (env : Env) (cols : List String) :
    List (List Value) → AgentState → List String → PyResult (List String) × AgentState
  | [], st, acc => (PyResult.ok acc.reverse, st)
  | r :: rs, st, acc =>
    match process_ticket env (cols.zip r) st with
    | (PyResult.ok res, st') => run_batch_go env cols rs st' (res :: acc)
    | (PyResult.exn m, st') => (PyResult.exn m, st')

/-- Model of `run_on_all_open_tickets`: load the sheet once, select the non-closed
rows, process each sequentially collecting outcome strings. -/
def run_on_all_open_tickets (env : Env) (st : AgentState) :
    PyResult (List String) × AgentState :=
  run_batch_go env st.table.cols (batch_open_selection st.table) st []

/-! ### Approval Gateway (`backend/app.py`) -/

/-- Modelled from the spec: `AUTO_STATUS_MANAGER_REVIEWED` is imported by
`backend/app.py` from `table_db`, but no definition of it appears in the
provided sources; the spec's data model names the marker value written
for a manager-reviewed ticket "manager-reviewed". -/
def AUTO_STATUS_MANAGER_REVIEWED : String := "manager-reviewed"

/-- Modelled from the spec: `AUTO_STATUS_AUTO_RESOLVED` is likewise
imported but not defined under the provided sources; the spec names the
marker "auto-resolved-pending-review". -/
def AUTO_STATUS_AUTO_RESOLVED : String := "auto-resolved-pending-review"

/-- A web response: body text plus HTTP status code. -/
structure HttpResponse where
  body : String
  code : Nat
deriving DecidableEq, Repr

/-- Model of `fetch_ticket_record` (64-69): first row whose stripped `Ticket ID`
equals the stripped requested id, as a dict; `none` when absent. -/
def fetch_ticket_record (t : Table) (ticket_id : String) : Option Dict :=
  if !(hasCol t.cols "Ticket ID") then none
  else
    match t.rows.find? (rowMatchesId t.cols (pyStrip ticket_id)) with
    | some row => some (t.cols.zip row)
    | none => none

/-- First key attaining the minimal count, in insertion order — Python's
`min(workload, key=workload.get)`. -/
def minByFirst : List (Value × Nat) → Option Value
  | [] => none
  | p :: rest =>
    some ((rest.foldl (fun best x => if x.2 < best.2 then x else best) p).1)

/-- Model of `auto_assign_single_ticket` (278-300): candidates are the distinct
non-null `User Name` values; each candidate's workload is their count of
rows with that exact name and Open status; the first minimal candidate is
written into the ticket; any failure yields `None` (exceptions are caught
by the blanket handler). -/
def auto_assign_single_ticket (env : Env) (t : Table) (ticket_id : String) :
    Option Value × Table :=
  if !(hasCol t.cols "User Name") || !(hasCol t.cols "Ticket Status") then (none, t)
  else
    let users := dedupFirst
      ((t.rows.map (fun r => getCell t.cols r "User Name")).filter (fun v => !(v == Value.na)))
    if users.isEmpty then (none, t)
    else
      let workload := users.map (fun u =>
        (u, (t.rows.filter (fun r =>
          getCell t.cols r "User Name" == u &&
          pyLower (getCell t.cols r "Ticket Status").toStr == "open")).length))
      match minByFirst workload with
      | none => (none, t)
      | some u =>
        let upd := update_multiple_fields env.now ticket_id [("User Name", u)] t
        (if upd.1 then some u else none, upd.2)

/-- The second (shadowing) `approve_ticket` route of `backend/app.py`
(606-631): token check, record fetch, the Closed/manager-reviewed/No
update with a closed timestamp, then the requester resolution email on a
successful update.  Returns the response, the resulting store, and the
notifications attempted. -/
def approve_ticket (env : Env) (ticket_id : String) (token : Option String) (t : Table) :
    HttpResponse × Table × List Email :=
  if !(validate_token env.hash env.secret ticket_id token) then
    ({ body := "Invalid or expired approval link.", code := 403 }, t, [])
  else
    match fetch_ticket_record t ticket_id with
    | none => ({ body := "Ticket not found.", code := 404 }, t, [])
    | some record =>
      let upd := update_multiple_fields env.now ticket_id
        [("Ticket Status", Value.str "Closed"),
         ("Auto Solved", Value.str AUTO_STATUS_MANAGER_REVIEWED),
         ("Admin Review Needed", Value.str "No"),
         ("Ticket Closed Date", Value.str env.now)] t
      if upd.1 then
        let mails := (send_requester_resolution_email env record
          (dictGetD record "AI Response" (Value.str ""))).1
        ({ body := "Ticket " ++ ticket_id ++ " Approved", code := 200 }, upd.2, mails)
      else ({ body := "Failed to update ticket.", code := 500 }, upd.2, [])

/-- The second (shadowing) `reject_ticket` route (633-662): token check,
the Open/manager-reviewed/No update, then exactly one
`auto_assign_single_ticket` call; the third component counts the
Workload Balancer invocations performed by the request. -/
def reject_ticket (env : Env) (ticket_id : String) (token : Option String) (t : Table) :
    HttpResponse × Table × Nat :=
  if !(validate_token env.hash env.secret ticket_id token) then
    ({ body := "Invalid or expired rejection link.", code := 403 }, t, 0)
  else
    let upd := update_multiple_fields env.now ticket_id
      [("Ticket Status", Value.str "Open"),
       ("Auto Solved", Value.str AUTO_STATUS_MANAGER_REVIEWED),
       ("Admin Review Needed", Value.str "No")] t
    if !upd.1 then ({ body := "Failed to update ticket.", code := 500 }, upd.2, 0)
    else
      let assign := auto_assign_single_ticket env upd.2 ticket_id
      match assign.1 with
      | some u =>
        ({ body := "Ticket " ++ ticket_id ++ " Reopened, assigned to " ++ u.toStr,
           code := 200 }, assign.2, 1)
      | none =>
        ({ body := "Ticket " ++ ticket_id ++ " Reopened, could not be auto-assigned",
           code := 200 }, assign.2, 1)

/-! ### Workload Balancer, bulk form (`backend/app.py::auto_assign_tickets`,
236-275) -/

/-- The rows the bulk endpoint iterates: every Open ticket (the source
filters on status only, not on being unassigned). -/
def open_rows (t : Table) : List (List Value) :=
  t.rows.filter (fun r => pyLower (getCell t.cols r "Ticket Status").toStr == "open")

/-- Computes `df["User Name"].dropna().unique()` — the candidate pool, in first
occurrence order. -/
def ticket_assignee_values (t : Table) : List Value :=
  dedupFirst ((t.rows.map (fun r => getCell t.cols r "User Name")).filter (fun v => !(v == Value.na)))

/-- A candidate's initial workload: Open tickets with that exact name. -/
def open_workload (t : Table) (u : Value) : Nat :=
  (t.rows.filter (fun r =>
    getCell t.cols r "User Name" == u &&
    pyLower (getCell t.cols r "Ticket Status").toStr == "open")).length

/-- The workload map, built once (line 256), in candidate order. -/
def workload_pairs (t : Table) : List (Value × Nat) :=
  (ticket_assignee_values t).map (fun u => (u, open_workload t u))

/-- Sorting key of `sorted(workload, key=workload.get)`. -/
def keyLe (a b : Value × Nat) : Prop := a.2 ≤ b.2

instance : DecidableRel keyLe := fun a b => decidable_of_iff (a.2 ≤ b.2) Iff.rfl

instance : IsTotal (Value × Nat) keyLe := ⟨fun a b => Nat.le_total a.2 b.2⟩

instance : IsTrans (Value × Nat) keyLe := ⟨fun _ _ _ h1 h2 => Nat.le_trans h1 h2⟩

/-- Model of `sorted_users` (line 257): candidates stably sorted by initial
workload, ascending (Python's sort is stable; so is insertion sort). -/
def sorted_users (t : Table) : List Value :=
  (List.insertionSort keyLe (workload_pairs t)).map Prod.fst

/-- The assignment sequence of the bulk endpoint (262-267): ticket `i`
goes to `sorted_users[i % len(sorted_users)]`; the in-memory workload
increment on line 266 is recorded but never read again. -/
def auto_assign_tickets_pairs (t : Table) : List (Value × Value) :=
  let opens := open_rows t
  if opens.isEmpty then []
  else if (ticket_assignee_values t).isEmpty then []
  else
    let users := sorted_users t
    opens.enum.map (fun p =>
      (getCell t.cols p.2 "Ticket ID", users.getD (p.1 % users.length) Value.na))

/-- Bump one candidate's in-memory count. -/
def bumpWorkload (l : List (Value × Nat)) (u : Value) : List (Value × Nat) :=
  l.map (fun p => if p.1 == u then (p.1, p.2 + 1) else p)

/-- Follows the spec's words, for comparison with the code: "build the
same workload map once, then iterate the target ticket set assigning each
to the currently-lowest-workload candidate and incrementing that
candidate's count in-memory before moving to the next ticket". -/
def spec_bulk_assign_pairs (t : Table) : List (Value × Value) :=
  let opens := open_rows t
  if opens.isEmpty then []
  else if (ticket_assignee_values t).isEmpty then []
  else
    (opens.foldl
      (fun (acc : List (Value × Value) × List (Value × Nat)) row =>
        match minByFirst acc.2 with
        | some u => (acc.1 ++ [(getCell t.cols row "Ticket ID", u)], bumpWorkload acc.2 u)
        | none => acc)
      ([], workload_pairs t)).1

/-! ### `backend/table_db.py::intelligent_assign_tickets` (282-360) -/

/-- The names bound by the module-level imports of
`backend/table_db.py` (lines 7-9: `pandas as pd`, `os`,
`from datetime import datetime`); `json` is not among them. -/
def table_db_imports : List String := ["pd", "os", "datetime"]

def json_in_scope : Bool := table_db_imports.contains "json"

/-- Unassigned-marker strings of the mask (line 320). -/
def BAD_ASSIGNEE_STRINGS : List String :=
  ["", "nan", "none", "unknown", "unassigned", "default"]

/-- The employee filter over `user.json` (lines 301-311). -/
def employee_candidates (users : List RosterUser) (team_name : Option String) : List String :=
  (users.filter (fun u =>
    pyLower u.role == "employee" &&
    (match team_name with
     | none => true
     | some tname =>
       if tname = "" then true
       else
         match u.team with
         | TeamField.list ts => ts.any (fun tv => containsSub (pyLower tv) (pyLower tname))
         | TeamField.str s => containsSub (pyLower s) (pyLower tname)))).map (·.name)

/-- The Open-and-unassigned mask (lines 318-324). -/
def unassigned_open_mask (cols : List String) (team_name : Option String)
    (row : List Value) : Bool :=
  pyLower (getCell cols row "Ticket Status").toStr == "open" &&
  (getCell cols row "User Name" == Value.na ||
    BAD_ASSIGNEE_STRINGS.contains (pyLower (getCell cols row "User Name").toStr)) &&
  (match team_name with
   | none => true
   | some tname =>
     if tname = "" then true
     else
       match getCell cols row "Assigned Team" with
       | Value.str s => containsSub (pyLower s) (pyLower tname)
       | _ => false)

/-- A candidate's workload as computed on line 335
(`User Name` lower-cased string comparison this time). -/
def ia_workload (t : Table) (emp : String) : Nat :=
  (t.rows.filter (fun r =>
    (match getCell t.cols r "User Name" with
     | Value.str s => pyLower s == pyLower emp
     | _ => false) &&
    pyLower (getCell t.cols r "Ticket Status").toStr == "open")).length

/-- The assignment loop (lines 339-346) over the rows of the ensured
sheet, threading the in-memory workload counts. -/
def ia_assign_loop (cols : List String) (now : String) (team_name : Option String) :
    List (List Value) → List (String × Nat) → List (List Value) × List (String × Nat) × Nat
  | [], workload => ([], workload, 0)
  | row :: rest, workload =>
    if unassigned_open_mask cols team_name row then
      match minByFirst (workload.map (fun p => (Value.str p.1, p.2))) with
      | some (Value.str emp) =>
        let row' := setCellRow cols (setCellRow cols row "User Name" (Value.str emp))
          "Ticket Updated Date" (Value.str now)
        let workload' := workload.map (fun p => if p.1 == emp then (p.1, p.2 + 1) else p)
        let r := ia_assign_loop cols now team_name rest workload'
        (row' :: r.1, r.2.1, r.2.2 + 1)
      | _ =>
        let r := ia_assign_loop cols now team_name rest workload
        (row :: r.1, r.2.1, r.2.2)
    else
      let r := ia_assign_loop cols now team_name rest workload
      (row :: r.1, r.2.1, r.2.2)

/-- The status/message dictionary `intelligent_assign_tickets` returns. -/
structure AssignResult where
  status : String
  message : String
  assigned_count : Option Nat := none
deriving DecidableEq, Repr

/-- The `try` body of `intelligent_assign_tickets` (291-355), step by
step: load and ensure the sheet, open `user.json` (raising when the file
is missing), then evaluate `json.load(f)` — `json` is a name the module
never imports, so a `NameError` is raised here; everything after this
point is unreachable but embedded faithfully. -/
def intelligent_assign_tickets_body (env : Env) (team_name : Option String) (t : Table) :
    PyResult (AssignResult × Table) :=
  let df := ensure_required_columns t
  if !env.usersFileExists then PyResult.exn "FileNotFoundError: user.json"
  else if !json_in_scope then PyResult.exn "NameError: name json is not defined"
  else
    let employees := employee_candidates env.usersFile team_name
    if employees.isEmpty then
      PyResult.ok ({ status := "error",
                     message := "No employees found for team" }, t)
    else if !(df.rows.any (unassigned_open_mask df.cols team_name)) then
      PyResult.ok ({ status := "success",
                     message := "No unassigned open tickets found.",
                     assigned_count := some 0 }, t)
    else
      let workload := employees.map (fun emp => (emp, ia_workload df emp))
      let r := ia_assign_loop df.cols env.now team_name df.rows workload
      PyResult.ok ({ status := "success",
                     message := "Successfully assigned tickets.",
                     assigned_count := some r.2.2 }, { cols := df.cols, rows := r.1 })

/-- Model of `intelligent_assign_tickets` with its blanket exception handler
(357-360): any exception becomes a status-"error" dictionary and the
store is left unchanged. -/
def intelligent_assign_tickets (env : Env) (team_name : Option String) (t : Table) :
    AssignResult × Table :=
  match intelligent_assign_tickets_body env team_name t with
  | PyResult.ok r => r
  | PyResult.exn m =>
    ({ status := "error", message := "Intelligent assignment failed: " ++ m }, t)

/-! ### Comparison predicates and concrete fixtures -/

/-- Follows the spec's words, for comparison with the code's batch
filter: "status is not Closed (case-insensitive), AND the auto-resolution
marker is unset/empty/null". -/
def spec_eligible (cols : List String) (row : List Value) : Bool :=
  batch_eligible cols row &&
  (getCell cols row "Auto Solved" == Value.na ||
   getCell cols row "Auto Solved" == Value.str "" ||
   getCell cols row "Auto Solved" == Value.bool false)

def ToolCall.isBadJson : ToolCall → Bool
  | ToolCall.badJson _ => true
  | _ => false

/-- A model response on which the dispatch code raises no exception: the
call itself succeeded, a plain answer has non-`None` content, and every
tool call's arguments parse. -/
def cleanResponse : ModelResponse → Prop
  | ModelResponse.raise _ => False
  | ModelResponse.text none => False
  | ModelResponse.text (some _) => True
  | ModelResponse.calls tcs => ∀ tc ∈ tcs, tc.isBadJson = false

/-- An oracle all of whose responses are clean. -/
def cleanOracle (env : Env) : Prop :=
  ∀ ticket_id turn, cleanResponse (env.oracle ticket_id turn)

/-- Rows whose raw `Description` cell cannot crash the reference
extraction (string, falsy, or absent). -/
def description_ok (cols : List String) (row : List Value) : Bool :=
  !(description_raises (cols.zip row))

/-- Injective never-empty hash used to instantiate the codec theorems at
a concrete input. -/
def c2_hash : String → String := fun s => String.mk ('x' :: s.data)

/-- Standard ticket-sheet header used by the concrete fixtures. -/
def fixtureCols : List String :=
  ["Ticket ID", "Ticket Status", "Auto Solved", "AI Response", "Admin Review Needed",
   "User Name", "Ticket Updated Date", "Assigned Team", "Description"]

/-- An Open ticket whose auto-resolution marker is already set to
manager-reviewed (the state a rejected approval leaves behind). -/
def reviewedOpenRow : List Value :=
  [Value.str "T1", Value.str "Open", Value.str "manager-reviewed", Value.str "done",
   Value.str "No", Value.str "Bob", Value.na, Value.str "AP",
   Value.str "Please unblock invoice INV-1"]

def reviewedOpenTable : Table := { cols := fixtureCols, rows := [reviewedOpenRow] }

/-- A second Open ticket, used to show batch aborts skip later tickets. -/
def secondOpenRow : List Value :=
  [Value.str "T2", Value.str "Open", Value.bool false, Value.str "",
   Value.str "No", Value.str "Amy", Value.na, Value.str "AR",
   Value.str "Refund status?"]

def twoOpenTable : Table := { cols := fixtureCols, rows := [reviewedOpenRow, secondOpenRow] }

/-- Benign concrete environment: identity-free collaborators, a model
that always answers with plain text. -/
def baseEnv : Env :=
  { hash := fun s => s, secret := "ey_approval_secret",
    baseUrl := "http://localhost:5000", today := "2026-10-12",
    now := "2026-10-12 09:00:00",
    emailForName := fun _ => none, managerFor := fun _ => none,
    render := fun _ _ => none, documentsAvailable := false, sendOk := true,
    invoices := { cols := [], rows := [] },
    oracle := fun _ _ => ModelResponse.text (some "acknowledged"),
    usersFileExists := false, usersFile := [] }

/-- Environment whose model call always raises. -/
def raiseEnv : Env :=
  { baseEnv with oracle := fun _ _ => ModelResponse.raise "model call failed" }

/-- A cached invoice record, as a prior `search_invoices` tool call would
leave it. -/
def cachedInvoice : Dict :=
  [("Invoice Number", Value.str "INV-9"), ("Payment Status", Value.str "Paid"),
   ("Invoice Amount", Value.int 500)]

/-- Ticket row for the document-request fixture (`Ticket ID` "T101"). -/
def docRow : List Value :=
  [Value.str "T101", Value.str "Open", Value.bool false, Value.str "",
   Value.str "No", Value.str "Bob", Value.na, Value.str "AP",
   Value.str "Send me a copy of invoice INV-9"]

def docTable : Table := { cols := fixtureCols, rows := [docRow] }

/-- The same ticket as the dict `process_ticket` receives. -/
def docTicket : Dict := fixtureCols.zip docRow

/-- Environment whose renderer produces a file and whose SMTP send
fails. -/
def renderEnv : Env :=
  { baseEnv with
    documentsAvailable := true,
    render := fun _ _ => some "temp_docs/Invoice_Copy_INV-9.pdf",
    sendOk := false,
    emailForName := fun v => if v == Value.str "Bob" then some "bob@ey.com" else none }

/-- Arguments of a `with_document` closure for `resolve_ticket`. -/
def docArgs : ResolveArgs :=
  { ai_response := some "Attached is the invoice copy.", auto_solved := some true,
    closure_type := "with_document", document_type := some "invoice_copy" }

/-- Arguments of a `needs_approval` closure for `resolve_ticket`. -/
def approvalArgs : ResolveArgs :=
  { ai_response := some "Early payment requires sign-off.", auto_solved := some false,
    closure_type := "needs_approval", document_type := some "none" }

/-- Environment whose directory lookup resolves the AP manager. -/
def approvalEnv : Env :=
  { baseEnv with managerFor := fun _ => some ("Mia Manager", "mia@ey.com") }

/-- Header for the gateway fixtures (adds the closed-timestamp column the
approve route stamps). -/
def gatewayCols : List String := fixtureCols ++ ["Ticket Closed Date"]

/-- A Pending-Manager-Approval ticket awaiting the manager's decision. -/
def pendingRow : List Value :=
  [Value.str "T7", Value.str "Pending Manager Approval", Value.bool true,
   Value.str "Refund approved by AI.", Value.str "Yes", Value.str "Bob", Value.na,
   Value.str "AR", Value.str "refund request", Value.na]

def pendingTable : Table := { cols := gatewayCols, rows := [pendingRow] }

/-- The same ticket as the dict `fetch_ticket_record` returns. -/
def pendingRecord : Dict := gatewayCols.zip pendingRow

/-- Environment whose directory resolves Bob's email. -/
def gatewayEnv : Env :=
  { baseEnv with
    emailForName := fun v => if v == Value.str "Bob" then some "bob@ey.com" else none }

/-- Sheet for the bulk-balancer scenario: candidate pool {a, b} with
initial open-counts a:0 (a's only ticket is Closed) and b:2. -/
def bulkCols : List String := ["Ticket ID", "Ticket Status", "User Name"]

def bulkTable : Table :=
  { cols := bulkCols,
    rows := [[Value.str "T1", Value.str "Closed", Value.str "a"],
             [Value.str "T2", Value.str "Open", Value.str "b"],
             [Value.str "T3", Value.str "Open", Value.str "b"]] }

/-! ## Lemma layer: cell operations -/

theorem colIndex_get? {cols : List String} {c : String} {i : Nat}
    (h : colIndex cols c = some i) : cols.get? i = some c := by
  induction cols generalizing i with
  | nil => simp [colIndex] at h
  | cons hd tl ih =>
    by_cases hc : hd = c
    · subst hc
      simp [colIndex] at h
      subst h
      rfl
    · simp [colIndex, hc] at h
      obtain ⟨j, hj, rfl⟩ := h
      simpa using ih hj

theorem colIndex_ne {cols : List String} {c c' : String} {i j : Nat}
    (hne : c ≠ c') (hi : colIndex cols c = some i) (hj : colIndex cols c' = some j) :
    i ≠ j := by
  intro hij
  subst hij
  have h1 := colIndex_get? hi
  have h2 := colIndex_get? hj
  rw [h1] at h2
  exact hne (Option.some.inj h2)

theorem colIndex_lt_length {cols : List String} {c : String} {i : Nat}
    (h : colIndex cols c = some i) : i < cols.length := by
  have := colIndex_get? h
  exact List.get?_eq_some.mp this |>.1

/-- Reading another column is unaffected by a cell write. -/
theorem getCell_setCellRow_ne (cols : List String) (row : List Value) {c c' : String}
    (v : Value) (hne : c' ≠ c) :
    getCell cols (setCellRow cols row c v) c' = getCell cols row c' := by
  unfold getCell setCellRow
  cases hc' : colIndex cols c' with
  | none => rfl
  | some j =>
    cases hc : colIndex cols c with
    | none => rfl
    | some i =>
      have hij : i ≠ j := colIndex_ne (fun h => hne h.symm) hc hc'
      simp [List.getD_eq_getElem?_getD, List.getElem?_set_ne hij]

/-- Reading the written column returns the written value when the row is
well-formed. -/
theorem getCell_setCellRow_self (cols : List String) (row : List Value) {c : String}
    (v : Value) (hcol : hasCol cols c = true) (hlen : row.length = cols.length) :
    getCell cols (setCellRow cols row c v) c = v := by
  unfold getCell setCellRow
  cases hc : colIndex cols c with
  | none => simp [hasCol, hc] at hcol
  | some i =>
    have hi : i < row.length := hlen ▸ colIndex_lt_length hc
    simp [List.getD_eq_getElem?_getD, List.getElem?_set_self hi]

theorem setCellRow_length (cols : List String) (row : List Value) (c : String) (v : Value) :
    (setCellRow cols row c v).length = row.length := by
  unfold setCellRow
  cases colIndex cols c <;> simp

/-! ## Lemma layer: the field-update loop -/

theorem applyFields_cons (cols : List String) (u : String × Value)
    (us : List (String × Value)) (row : List Value) :
    applyFields cols (u :: us) row =
      applyFields cols us
        (if hasCol cols (field_map u.1) = true then setCellRow cols row (field_map u.1) u.2
         else row) := by
  rfl

theorem applyFields_length (cols : List String) (updates : List (String × Value))
    (row : List Value) : (applyFields cols updates row).length = row.length := by
  induction updates generalizing row with
  | nil => rfl
  | cons u us ih =>
    rw [applyFields_cons]
    by_cases h : hasCol cols (field_map u.1) = true
    · rw [if_pos h, ih, setCellRow_length]
    · rw [if_neg h, ih]

theorem lastWrite_cons (u : String × Value) (us : List (String × Value)) (c : String) :
    lastWrite (u :: us) c =
      match lastWrite us c with
      | some p => some p
      | none => if field_map u.1 = c then some u.2 else none := by
  unfold lastWrite
  by_cases hm : field_map u.1 = c
  · simp only [List.filter_cons, hm, beq_self_eq_true, if_pos]
    cases hf : us.filter (fun fv => field_map fv.1 == c) with
    | nil => simp [hf]
    | cons b bs =>
      rw [List.getLast?_cons_cons]
      have : (b :: bs).getLast? = some ((b :: bs).getLast (by simp)) := by
        simp [List.getLast?_eq_getLast]
      simp [this]
  · have : (fun fv : String × Value => field_map fv.1 == c) u = false := by
      simpa using hm
    simp only [List.filter_cons, this]
    cases hf : (us.filter (fun fv => field_map fv.1 == c)).getLast? <;> simp [hf, hm]

/-- What the update loop leaves in a column: the last update targeting it
(after alias resolution) when the column exists, else the old value. -/
theorem getCell_applyFields (cols : List String) (updates : List (String × Value))
    (row : List Value) (c : String) (hcol : hasCol cols c = true)
    (hlen : row.length = cols.length) :
    getCell cols (applyFields cols updates row) c =
      (lastWrite updates c).getD (getCell cols row c) := by
  induction updates generalizing row with
  | nil => rfl
  | cons u us ih =>
    rw [applyFields_cons, lastWrite_cons]
    by_cases hm : field_map u.1 = c
    · subst hm
      rw [if_pos hcol]
      have hlen' : (setCellRow cols row (field_map u.1) u.2).length = cols.length :=
        (setCellRow_length cols row (field_map u.1) u.2).trans hlen
      rw [ih _ hlen', getCell_setCellRow_self cols row u.2 hcol hlen]
      cases lastWrite us (field_map u.1) <;> simp
    · by_cases h : hasCol cols (field_map u.1) = true
      · rw [if_pos h]
        have hlen' : (setCellRow cols row (field_map u.1) u.2).length = cols.length :=
          (setCellRow_length cols row (field_map u.1) u.2).trans hlen
        rw [ih _ hlen', getCell_setCellRow_ne cols row u.2 (fun h' => hm h'.symm)]
        cases lastWrite us c <;> simp [hm]
      · rw [if_neg h, ih _ hlen]
        cases lastWrite us c <;> simp [hm]

/-! ## Lemma layer: `update_multiple_fields` -/

theorem hasCol_of_stdCols {t : Table} (h : stdCols t = true) :
    hasCol t.cols "Ticket ID" = true ∧ hasCol t.cols "Ticket Updated Date" = true ∧
    hasCol t.cols "Auto Solved" = true ∧ hasCol t.cols "AI Response" = true ∧
    hasCol t.cols "Ticket Status" = true ∧ hasCol t.cols "Admin Review Needed" = true ∧
    hasCol t.cols "User Name" = true := by
  unfold stdCols at h
  simp only [Bool.and_eq_true] at h
  exact ⟨h.1.1.1.1.1.1, h.1.1.1.1.1.2, h.1.1.1.1.2, h.1.1.1.2, h.1.1.2, h.1.2, h.2⟩

/-- With the utility columns already present, `ensure_required_columns`
is the identity. -/
theorem ensure_required_columns_id {t : Table} (h : stdCols t = true) :
    ensure_required_columns t = t := by
  obtain ⟨_, h2, h3, h4, _⟩ := hasCol_of_stdCols h
  unfold ensure_required_columns addColumn
  rw [if_pos h2]
  rw [if_pos h3]
  rw [if_pos h4]

/-- Successful update: the ticket is present, so the saved sheet is the
row-wise `umfRow` image. -/
theorem update_multiple_fields_success {t : Table} (now ticket_id : String)
    (updates : List (String × Value)) (hstd : stdCols t = true)
    (hmatch : t.rows.any (rowMatchesId t.cols (pyStrip ticket_id)) = true) :
    update_multiple_fields now ticket_id updates t =
      (true, { cols := t.cols, rows := t.rows.map (umfRow t.cols now (pyStrip ticket_id) updates) }) := by
  obtain ⟨h1, _⟩ := hasCol_of_stdCols hstd
  unfold update_multiple_fields
  rw [ensure_required_columns_id hstd]
  simp [h1, hmatch]

/-- Failed update: no row matches, so nothing is written. -/
theorem update_multiple_fields_no_match {t : Table} (now ticket_id : String)
    (updates : List (String × Value)) (hstd : stdCols t = true)
    (hmatch : t.rows.any (rowMatchesId t.cols (pyStrip ticket_id)) = false) :
    update_multiple_fields now ticket_id updates t = (false, t) := by
  obtain ⟨h1, _⟩ := hasCol_of_stdCols hstd
  unfold update_multiple_fields
  rw [ensure_required_columns_id hstd]
  simp [h1, hmatch]

theorem umfRow_not_matching {cols : List String} {now searchId : String}
    {updates : List (String × Value)} {row : List Value}
    (h : rowMatchesId cols searchId row = false) :
    umfRow cols now searchId updates row = row := by
  unfold umfRow
  rw [h]
  rfl

theorem umfRow_length (cols : List String) (now searchId : String)
    (updates : List (String × Value)) (row : List Value) :
    (umfRow cols now searchId updates row).length = row.length := by
  unfold umfRow
  by_cases h : rowMatchesId cols searchId row = true
  · rw [if_pos h, setCellRow_length, applyFields_length]
  · rw [if_neg h]

/-- A matched row carries the forced update timestamp. -/
theorem umfRow_updated_date {cols : List String} {now searchId : String}
    {updates : List (String × Value)} {row : List Value}
    (hm : rowMatchesId cols searchId row = true)
    (hcol : hasCol cols "Ticket Updated Date" = true)
    (hlen : row.length = cols.length) :
    getCell cols (umfRow cols now searchId updates row) "Ticket Updated Date" = Value.str now := by
  unfold umfRow
  rw [if_pos hm]
  exact getCell_setCellRow_self cols _ _ hcol
    ((applyFields_length cols updates row).trans hlen)

/-- A matched row's cell in any other column is the last alias-resolved
update targeting it, or unchanged. -/
theorem umfRow_other_col {cols : List String} {now searchId : String}
    {updates : List (String × Value)} {row : List Value} {c : String}
    (hm : rowMatchesId cols searchId row = true)
    (hc : c ≠ "Ticket Updated Date")
    (hcol : hasCol cols c = true)
    (hlen : row.length = cols.length) :
    getCell cols (umfRow cols now searchId updates row) c =
      (lastWrite updates c).getD (getCell cols row c) := by
  unfold umfRow
  rw [if_pos hm]
  rw [getCell_setCellRow_ne cols _ _ hc]
  exact getCell_applyFields cols updates row c hcol hlen

/-- A column never targeted by the updates (and distinct from the forced
timestamp) is unchanged on every row — no length assumption needed. -/
theorem umfRow_untouched_col {cols : List String} {now searchId : String}
    {updates : List (String × Value)} {row : List Value} {c : String}
    (hc : c ≠ "Ticket Updated Date")
    (hlw : lastWrite updates c = none) :
    getCell cols (umfRow cols now searchId updates row) c = getCell cols row c := by
  unfold umfRow
  by_cases hm : rowMatchesId cols searchId row = true
  · rw [if_pos hm]
    rw [getCell_setCellRow_ne cols _ _ hc]
    -- no update targets c, so the fold preserves it
    clear hm
    induction updates generalizing row with
    | nil => rfl
    | cons u us ih =>
      rw [applyFields_cons]
      rw [lastWrite_cons] at hlw
      cases hf : lastWrite us c with
      | some p => rw [hf] at hlw; simp at hlw
      | none =>
        rw [hf] at hlw
        by_cases hm2 : field_map u.1 = c
        · rw [if_pos hm2] at hlw; simp at hlw
        · by_cases h : hasCol cols (field_map u.1) = true
          · rw [if_pos h, ih hf]
            exact getCell_setCellRow_ne cols row u.2 (fun h' => hm2 h'.symm)
          · rw [if_neg h, ih hf]
  · rw [if_neg hm]

/-- The row mask is invariant under updates that do not touch `Ticket ID`. -/
theorem umfRow_matches_iff {cols : List String} {now searchId searchId' : String}
    {updates : List (String × Value)} {row : List Value}
    (hlw : lastWrite updates "Ticket ID" = none) :
    rowMatchesId cols searchId' (umfRow cols now searchId updates row) =
      rowMatchesId cols searchId' row := by
  unfold rowMatchesId
  rw [umfRow_untouched_col (by decide) hlw]

theorem wfRows_map_umfRow {t : Table} (now searchId : String)
    (updates : List (String × Value)) (hwf : wfRows t = true) :
    wfRows { cols := t.cols, rows := t.rows.map (umfRow t.cols now searchId updates) } = true := by
  unfold wfRows at hwf ⊢
  simp only [List.all_eq_true] at hwf ⊢
  intro r hr
  simp only [List.mem_map] at hr
  obtain ⟨row, hrow, rfl⟩ := hr
  simpa [umfRow_length] using hwf row hrow

theorem stdCols_mk_of (t : Table) (rows' : List (List Value)) (h : stdCols t = true) :
    stdCols { cols := t.cols, rows := rows' } = true := by
  unfold stdCols at h ⊢
  exact h

/-! ## Shared helper lemmas -/

theorem string_append_cancel_right {a b c : String} (h : a ++ c = b ++ c) : a = b := by
  have hd := congrArg String.data h
  simp only [String.data_append] at hd
  exact String.ext (List.append_cancel_right hd)

theorem approval_raw_inj {id1 id2 secret : String}
    (h : id1 ++ ":" ++ secret = id2 ++ ":" ++ secret) : id1 = id2 :=
  string_append_cancel_right (string_append_cancel_right h)

/-! ## Claim C9 -/

/-- C9: for every input team name (and any roster/file environment),
`intelligent_assign_tickets` returns a status-"error" dictionary and
performs no ticket-store mutation: its body evaluates the name `json`,
which `backend/table_db.py` never imports, so a NameError (or the
preceding file-open error) is raised and caught by the blanket handler
before any assignment or save. -/
theorem C9_intelligent_assign_always_errors (env : Env) (team_name : Option String) (t : Table) :
    (intelligent_assign_tickets env team_name t).1.status = "error" ∧
    (intelligent_assign_tickets env team_name t).2 = t := by
  unfold intelligent_assign_tickets intelligent_assign_tickets_body
  cases h : env.usersFileExists with
  | false => simp [h]
  | true =>
    have hj : json_in_scope = false := by decide
    simp [h, hj]

/-! ## Claim C1 -/

/-- C1 (counterexample): an Open ticket whose auto-resolution marker is
already set to manager-reviewed is selected by the batch pass and is
processed by the Resolution Engine (the model is consulted and its
answer returned, not the already-closed skip), contradicting both the
claimed at-most-one-automated-attempt behaviour and the claimed
eligible-set characterization. -/
theorem C1_counterexample :
    batch_open_selection reviewedOpenTable = [reviewedOpenRow] ∧
    spec_eligible fixtureCols reviewedOpenRow = false ∧
    (process_ticket baseEnv (fixtureCols.zip reviewedOpenRow)
      { table := reviewedOpenTable, emails := [], files := [] }).1 =
      PyResult.ok "acknowledged" := by
  refine ⟨rfl, rfl, rfl⟩

/-- C1 (amended): one batch pass selects exactly the rows whose status is
not "closed" case-insensitively; the auto-resolution marker is never
consulted (eligibility is invariant under any marker value), and the
engine's own guard skips precisely the already-Closed tickets, returning
the skip message with no state change. -/
theorem C1_amended_eligibility (t : Table) (row : List Value) (v : Value)
    (env : Env) (ticket : Dict) (st : AgentState)
    (hclosed : pyLower (dictGetD ticket "Ticket Status" (Value.str "Open")).toStr = "closed") :
    (row ∈ batch_open_selection t ↔ row ∈ t.rows ∧ batch_eligible t.cols row = true) ∧
    batch_eligible t.cols (setCellRow t.cols row "Auto Solved" v) = batch_eligible t.cols row ∧
    process_ticket env ticket st = (PyResult.ok "Ticket is already closed.", st) := by
  refine ⟨List.mem_filter, ?_, ?_⟩
  · unfold batch_eligible
    rw [getCell_setCellRow_ne t.cols row v (by decide)]
  · unfold process_ticket
    simp [pyStrOpt, hclosed]

/-- C1 (witness): the amended statement at concrete inputs. -/
theorem C1_amended_witness :
    (reviewedOpenRow ∈ batch_open_selection reviewedOpenTable ↔
      reviewedOpenRow ∈ reviewedOpenTable.rows ∧
      batch_eligible reviewedOpenTable.cols reviewedOpenRow = true) ∧
    batch_eligible reviewedOpenTable.cols
      (setCellRow reviewedOpenTable.cols reviewedOpenRow "Auto Solved" Value.na) =
      batch_eligible reviewedOpenTable.cols reviewedOpenRow ∧
    process_ticket baseEnv [("Ticket Status", Value.str "Closed")]
      { table := reviewedOpenTable, emails := [], files := [] } =
      (PyResult.ok "Ticket is already closed.",
       { table := reviewedOpenTable, emails := [], files := [] }) :=
  C1_amended_eligibility reviewedOpenTable reviewedOpenRow Value.na baseEnv
    [("Ticket Status", Value.str "Closed")]
    { table := reviewedOpenTable, emails := [], files := [] } (by decide)

/-! ## Claim C10 -/

/-- C10 (counterexample): a successful `update_multiple_fields` call with
the aliased key "Team Name" changes the column "Assigned Team" of the
matched row even though "Assigned Team" is not named in the updates,
refuting the claimed frame condition as stated. -/
theorem C10_counterexample :
    (update_multiple_fields "2026-10-12 09:00:00" "T1"
      [("Team Name", Value.str "AR")] reviewedOpenTable).1 = true ∧
    ("Assigned Team" ∈ ([("Team Name", Value.str "AR")].map Prod.fst : List String)) = False ∧
    getCell fixtureCols
      (((update_multiple_fields "2026-10-12 09:00:00" "T1"
        [("Team Name", Value.str "AR")] reviewedOpenTable).2.rows).getD 0 [])
      "Assigned Team" = Value.str "AR" ∧
    getCell fixtureCols reviewedOpenRow "Assigned Team" = Value.str "AP" := by
  refine ⟨rfl, by simp, rfl, rfl⟩

/-- C10 (amended): on a sheet with the standard columns, a call with no
matching `Ticket ID` returns False and writes nothing; a successful call
rewrites exactly the matched rows: the forced "Ticket Updated Date"
stamp overwrites any caller-supplied value, a column not targeted by any
alias-resolved update keeps its old value, and a targeted column receives
the last update aimed at it; unmatched rows are returned unchanged. -/
theorem C10_amended_update_frame (now tid : String) (updates : List (String × Value)) (t : Table)
    (hstd : stdCols t = true) (hwf : wfRows t = true) :
    (t.rows.any (rowMatchesId t.cols (pyStrip tid)) = false →
      update_multiple_fields now tid updates t = (false, t)) ∧
    (t.rows.any (rowMatchesId t.cols (pyStrip tid)) = true →
      update_multiple_fields now tid updates t =
        (true, { cols := t.cols, rows := t.rows.map (umfRow t.cols now (pyStrip tid) updates) }) ∧
      (∀ row ∈ t.rows, rowMatchesId t.cols (pyStrip tid) row = false →
        umfRow t.cols now (pyStrip tid) updates row = row) ∧
      (∀ row ∈ t.rows, rowMatchesId t.cols (pyStrip tid) row = true →
        getCell t.cols (umfRow t.cols now (pyStrip tid) updates row) "Ticket Updated Date" =
          Value.str now ∧
        (∀ c, c ≠ "Ticket Updated Date" → lastWrite updates c = none →
          getCell t.cols (umfRow t.cols now (pyStrip tid) updates row) c = getCell t.cols row c) ∧
        (∀ c v, c ≠ "Ticket Updated Date" → hasCol t.cols c = true →
          lastWrite updates c = some v →
          getCell t.cols (umfRow t.cols now (pyStrip tid) updates row) c = v))) := by
  obtain ⟨_, hUpd, _⟩ := hasCol_of_stdCols hstd
  constructor
  · intro hm
    exact update_multiple_fields_no_match now tid updates hstd hm
  · intro hm
    refine ⟨update_multiple_fields_success now tid updates hstd hm, ?_, ?_⟩
    · intro row _ hrow
      exact umfRow_not_matching hrow
    · intro row hrowmem hrow
      have hlen : row.length = t.cols.length := by
        have := (List.all_eq_true.mp hwf) row hrowmem
        simpa using this
      refine ⟨umfRow_updated_date hrow hUpd hlen, ?_, ?_⟩
      · intro c hc hlw
        exact umfRow_untouched_col hc hlw
      · intro c v hc hcol hlw
        rw [umfRow_other_col hrow hc hcol hlen, hlw]
        rfl

/-- C10 (witness): the amended statement applied at a concrete sheet, in
both the no-match and the matched branch. -/
theorem C10_amended_witness :
    update_multiple_fields "n" "TX" [("Ticket Status", Value.str "Closed")] reviewedOpenTable =
      (false, reviewedOpenTable) ∧
    update_multiple_fields "n" "T1" [("Ticket Status", Value.str "Closed")] reviewedOpenTable =
      (true, { cols := reviewedOpenTable.cols,
               rows := reviewedOpenTable.rows.map
                 (umfRow reviewedOpenTable.cols "n" (pyStrip "T1")
                   [("Ticket Status", Value.str "Closed")]) }) :=
  ⟨(C10_amended_update_frame "n" "TX" [("Ticket Status", Value.str "Closed")]
      reviewedOpenTable (by decide) (by decide)).1 (by decide),
   ((C10_amended_update_frame "n" "T1" [("Ticket Status", Value.str "Closed")]
      reviewedOpenTable (by decide) (by decide)).2 (by decide)).1⟩

/-! ## Claim C2 -/

/-- C2: with the token derivation of the source (a one-way hash of
`ticket_id + ":" + secret`; injectivity models SHA-256's collision
resistance, non-empty output models the 64-character hexdigest),
`verify(id, mint(id))` holds, `verify(id, mint(id2))` fails for distinct
ids, and the empty token never verifies. -/
theorem C2_token_roundtrip (hash : String → String) (secret id1 id2 : String)
    (hinj : Function.Injective hash) (hne : ∀ s, hash s ≠ "") (hid : id1 ≠ id2) :
    validate_token hash secret id1 (some (generate_approval_token hash secret id1)) = true ∧
    validate_token hash secret id1 (some (generate_approval_token hash secret id2)) = false ∧
    validate_token hash secret id1 (some "") = false := by
  unfold validate_token generate_approval_token
  refine ⟨by simp, ?_, ?_⟩
  · rw [beq_eq_false_iff_ne]
    intro hsome
    exact hid (approval_raw_inj (hinj (Option.some.inj hsome).symm))
  · rw [beq_eq_false_iff_ne]
    intro hsome
    exact hne _ (Option.some.inj hsome).symm

/-- C2 (witness): the codec theorem at a concrete injective never-empty
hash and the ids "A" and "B". -/
theorem C2_token_roundtrip_witness :
    validate_token c2_hash "ey_approval_secret" "A"
      (some (generate_approval_token c2_hash "ey_approval_secret" "A")) = true ∧
    validate_token c2_hash "ey_approval_secret" "A"
      (some (generate_approval_token c2_hash "ey_approval_secret" "B")) = false ∧
    validate_token c2_hash "ey_approval_secret" "A" (some "") = false :=
  C2_token_roundtrip c2_hash "ey_approval_secret" "A" "B"
    (by
      intro a b h
      have hd := congrArg String.data h
      simp only [c2_hash] at hd
      exact String.ext (List.cons.inj hd).2)
    (by
      intro s h
      have hd := congrArg String.data h
      simp [c2_hash] at hd)
    (by decide)

/-! ## Claim C3 -/

/-- C3 (counterexample): an exception raised by the model call escapes
`process_ticket`, and the same exception aborts the whole batch pass (the
second open ticket is never processed — the batch result is the raw
exception, not a list of outcomes). -/
theorem C3_counterexample :
    (process_ticket raiseEnv (fixtureCols.zip reviewedOpenRow)
      { table := twoOpenTable, emails := [], files := [] }).1 =
      PyResult.exn "model call failed" ∧
    (run_on_all_open_tickets raiseEnv { table := twoOpenTable, emails := [], files := [] }).1 =
      PyResult.exn "model call failed" := by
  refine ⟨rfl, rfl⟩

theorem resolve_branch_ok (env : Env) (ticket : Dict) (ticket_id description : String)
    (lastInv : Option Dict) (closure_type ai_response : String) (auto_solved : Bool)
    (document_type : String) (hdesc : description_raises ticket = false) :
    ∃ b, resolve_branch env ticket ticket_id description lastInv closure_type
      ai_response auto_solved document_type = PyResult.ok b := by
  unfold resolve_branch
  by_cases h1 : (closure_type == "needs_approval") = true
  · rw [if_pos h1]
    exact ⟨_, rfl⟩
  · rw [if_neg h1]
    by_cases h2 : (closure_type == "with_document") = true
    · rw [if_pos h2]
      unfold resolve_invoice_data
      cases lastInv with
      | some c => exact ⟨_, rfl⟩
      | none =>
        rw [hdesc]
        exact ⟨_, rfl⟩
    · rw [if_neg h2]
      exact ⟨_, rfl⟩

theorem handleResolve_ok (env : Env) (ticket : Dict) (ticket_id description : String)
    (lastInv : Option Dict) (args : ResolveArgs) (st : AgentState)
    (hdesc : description_raises ticket = false) :
    ∃ o st', handleResolve env ticket ticket_id description lastInv args st =
      (PyResult.ok o, st') := by
  obtain ⟨b, hb⟩ := resolve_branch_ok env ticket ticket_id description lastInv
    args.closure_type (args.ai_response.getD "Ticket processed by AI.")
    (args.auto_solved.getD true) (args.document_type.getD "none") hdesc
  unfold handleResolve
  simp only [hb]
  exact ⟨_, _, rfl⟩

theorem runToolCalls_no_exn (env : Env) (ticket : Dict) (ticket_id description : String)
    (tcs : List ToolCall) (lastInv : Option Dict) (st : AgentState)
    (hclean : ∀ tc ∈ tcs, tc.isBadJson = false)
    (hdesc : description_raises ticket = false) :
    (∃ o st', runToolCalls env ticket ticket_id description tcs lastInv st =
      TurnStep.done (PyResult.ok o) st') ∨
    (∃ li st', runToolCalls env ticket ticket_id description tcs lastInv st =
      TurnStep.next li st') := by
  induction tcs generalizing lastInv with
  | nil => exact Or.inr ⟨lastInv, st, rfl⟩
  | cons tc rest ih =>
    cases tc with
    | badJson m =>
      have := hclean (ToolCall.badJson m) (by simp)
      simp [ToolCall.isBadJson] at this
    | search params =>
      have hrest : ∀ tc ∈ rest, tc.isBadJson = false := fun tc htc =>
        hclean tc (List.mem_cons_of_mem _ htc)
      exact ih _ hrest
    | resolve args =>
      obtain ⟨o, st', h⟩ := handleResolve_ok env ticket ticket_id description lastInv args st hdesc
      refine Or.inl ⟨o, st', ?_⟩
      unfold runToolCalls
      rw [h]
    | reassign args =>
      exact Or.inl ⟨_, _, rfl⟩

theorem runTurns_no_exn (env : Env) (ticket : Dict) (ticket_id description : String)
    (hclean : cleanOracle env) (hdesc : description_raises ticket = false) :
    ∀ (fuel turn : Nat) (lastInv : Option Dict) (st : AgentState),
    ∃ o st', runTurns env ticket ticket_id description fuel turn lastInv st =
      (PyResult.ok o, st') := by
  intro fuel
  induction fuel with
  | zero => exact fun turn lastInv st => ⟨_, st, rfl⟩
  | succ f ih =>
    intro turn lastInv st
    have hresp := hclean ticket_id turn
    unfold runTurns
    cases hr : env.oracle ticket_id turn with
    | raise m => rw [hr] at hresp; exact absurd hresp (by simp [cleanResponse])
    | text c =>
      cases c with
      | none => rw [hr] at hresp; exact absurd hresp (by simp [cleanResponse])
      | some s => exact ⟨_, st, rfl⟩
    | calls tcs =>
      rw [hr] at hresp
      have hclean' : ∀ tc ∈ tcs, tc.isBadJson = false := hresp
      rcases runToolCalls_no_exn env ticket ticket_id description tcs lastInv st hclean' hdesc with
        ⟨o, st', h⟩ | ⟨li, st', h⟩
      · exact ⟨o, st', by simp only [h]⟩
      · obtain ⟨o2, st2, h2⟩ := ih (turn + 1) li st'
        exact ⟨o2, st2, by simp only [h, h2]⟩

theorem process_ticket_no_exn (env : Env) (ticket : Dict) (st : AgentState)
    (hclean : cleanOracle env) (hdesc : description_raises ticket = false) :
    ∃ o st', process_ticket env ticket st = (PyResult.ok o, st') := by
  unfold process_ticket
  by_cases h : (pyLower (pyStrOpt (some (dictGetD ticket "Ticket Status" (Value.str "Open"))))
      == "closed") = true
  · rw [if_pos h]
    exact ⟨_, st, rfl⟩
  · rw [if_neg h]
    exact runTurns_no_exn env ticket _ _ hclean hdesc 6 0 none st

theorem run_batch_go_ok (env : Env) (cols : List String) (hclean : cleanOracle env) :
    ∀ (rows : List (List Value)) (st : AgentState) (acc : List String),
    (∀ r ∈ rows, description_raises (cols.zip r) = false) →
    ∃ res st', run_batch_go env cols rows st acc = (PyResult.ok res, st') ∧
      res.length = rows.length + acc.length := by
  intro rows
  induction rows with
  | nil => exact fun st acc _ => ⟨acc.reverse, st, rfl, by simp⟩
  | cons r rs ih =>
    intro st acc hdesc
    obtain ⟨o, st', h⟩ := process_ticket_no_exn env (cols.zip r) st hclean
      (hdesc r (by simp))
    obtain ⟨res, st'', h2, hlen⟩ := ih st' (o :: acc)
      (fun r2 hr2 => hdesc r2 (List.mem_cons_of_mem _ hr2))
    refine ⟨res, st'', ?_, ?_⟩
    · unfold run_batch_go
      rw [h]
      exact h2
    · simp only [hlen, List.length_cons]
      omega

/-- C3 (amended): a model-call exception or unparsable tool arguments (or
a truthy non-string Description reaching the extraction) escape
`process_ticket` and abort the rest of the batch — see the
counterexample; conversely, when every model response is clean and the
selected rows carry well-formed descriptions, every eligible ticket
yields an outcome string (store-update and notification failures are
contained as outcomes, never exceptions) and the batch returns one
outcome per selected ticket. -/
theorem C3_amended_containment (env : Env) (st : AgentState)
    (hclean : cleanOracle env)
    (hdesc : ∀ r ∈ batch_open_selection st.table, description_ok st.table.cols r = true) :
    ∃ results st', run_on_all_open_tickets env st = (PyResult.ok results, st') ∧
      results.length = (batch_open_selection st.table).length := by
  have hd : ∀ r ∈ batch_open_selection st.table,
      description_raises (st.table.cols.zip r) = false := by
    intro r hr
    have := hdesc r hr
    unfold description_ok at this
    simpa using this
  obtain ⟨res, st', h, hlen⟩ := run_batch_go_ok env st.table.cols hclean
    (batch_open_selection st.table) st [] hd
  exact ⟨res, st', h, by simpa using hlen⟩

/-- C3 (witness): the amended statement at a concrete clean environment
over a two-ticket sheet. -/
theorem C3_amended_witness :
    ∃ results st',
      run_on_all_open_tickets baseEnv { table := twoOpenTable, emails := [], files := [] } =
        (PyResult.ok results, st') ∧
      results.length = (batch_open_selection twoOpenTable).length :=
  C3_amended_containment baseEnv { table := twoOpenTable, emails := [], files := [] }
    (fun _ _ => trivial) (by decide)

/-! ## Claim C7 -/

/-- C7 (counterexample): a `with_document` resolve whose renderer
produced a temporary file and whose notification send failed leaves the
rendered file on disk after the call completes — the file set still
contains the path (and the attempted notification carried it as
attachment), contradicting the claimed deletion. -/
theorem C7_counterexample :
    (handleResolve renderEnv docTicket "T101" "Send me a copy of invoice INV-9"
      (some cachedInvoice) docArgs { table := docTable, emails := [], files := [] }).2.files =
      ["temp_docs/Invoice_Copy_INV-9.pdf"] ∧
    (handleResolve renderEnv docTicket "T101" "Send me a copy of invoice INV-9"
      (some cachedInvoice) docArgs { table := docTable, emails := [], files := [] }).2.emails.map
      Email.attachment = [some "temp_docs/Invoice_Copy_INV-9.pdf"] := by
  refine ⟨rfl, rfl⟩

/-- C7 (amended): the temporary rendered file is never deleted — for
every `with_document` resolve in which the renderer produced a file, that
file is still present after the notification attempt, whatever the send
outcome (no cleanup call exists in the source). -/
theorem C7_amended_file_retained (env : Env) (ticket : Dict) (ticket_id description : String)
    (lastInv : Option Dict) (args : ResolveArgs) (st : AgentState) (p : String)
    (hclosure : args.closure_type = "with_document")
    (hatt : with_document_attachment env ticket lastInv (args.document_type.getD "none") =
      PyResult.ok (some p)) :
    p ∈ (handleResolve env ticket ticket_id description lastInv args st).2.files := by
  have h1 : (args.closure_type == "needs_approval") = false := by
    rw [hclosure]; decide
  have h2 : (args.closure_type == "with_document") = true := by
    rw [hclosure]; decide
  unfold handleResolve resolve_branch
  unfold with_document_attachment at hatt
  cases hri : resolve_invoice_data env ticket lastInv with
  | exn m =>
    rw [hri] at hatt
    exact absurd hatt (by simp)
  | ok payload =>
    rw [hri] at hatt
    have hattv := PyResult.ok.inj hatt
    simp only [h1, h2, Bool.false_eq_true, if_false, if_true, hri, hattv]
    simp

/-- C7 (witness): the amended statement at the concrete renderer fixture
(send failing). -/
theorem C7_amended_witness :
    "temp_docs/Invoice_Copy_INV-9.pdf" ∈
      (handleResolve renderEnv docTicket "T101" "Send me a copy of invoice INV-9"
        (some cachedInvoice) docArgs { table := docTable, emails := [], files := [] }).2.files :=
  C7_amended_file_retained renderEnv docTicket "T101" "Send me a copy of invoice INV-9"
    (some cachedInvoice) docArgs { table := docTable, emails := [], files := [] }
    "temp_docs/Invoice_Copy_INV-9.pdf" rfl rfl

/-! ## Claim C6 -/

/-- C6: a `needs_approval` resolve on a stored ticket sets its status to
Pending Manager Approval and the admin-review flag to Yes; when the
directory resolves the team's manager, exactly one approval-request
notification is sent — to that manager, with both the approve link and
the reject link in the body — and none to the requester; when no manager
is found the ticket still ends Pending Manager Approval with the flag
set and no notification of any kind is sent. -/
theorem C6_needs_approval_effects (env : Env) (ticket : Dict) (ticket_id description : String)
    (lastInv : Option Dict) (args : ResolveArgs) (st : AgentState)
    (hclosure : args.closure_type = "needs_approval")
    (hstd : stdCols st.table = true) (hwf : wfRows st.table = true)
    (hmatch : st.table.rows.any (rowMatchesId st.table.cols (pyStrip ticket_id)) = true) :
    ((handleResolve env ticket ticket_id description lastInv args st).2.table.cols
      = st.table.cols) ∧
    (∃ row ∈ (handleResolve env ticket ticket_id description lastInv args st).2.table.rows,
      rowMatchesId st.table.cols (pyStrip ticket_id) row = true) ∧
    (∀ row ∈ (handleResolve env ticket ticket_id description lastInv args st).2.table.rows,
      rowMatchesId st.table.cols (pyStrip ticket_id) row = true →
      getCell st.table.cols row "Ticket Status" = Value.str "Pending Manager Approval" ∧
      getCell st.table.cols row "Admin Review Needed" = Value.str "Yes") ∧
    (∀ mn me, env.managerFor (dictGet ticket "Assigned Team") = some (mn, me) →
      ∃ e, (handleResolve env ticket ticket_id description lastInv args st).2.emails
          = st.emails ++ [e] ∧
        e.to_email = me ∧
        (∃ a b c, e.body =
          a ++ (env.baseUrl ++ "/ticket/approve/" ++ ticket_id ++ "?token=" ++
            generate_approval_token env.hash env.secret ticket_id) ++
          b ++ (env.baseUrl ++ "/ticket/reject/" ++ ticket_id ++ "?token=" ++
            generate_approval_token env.hash env.secret ticket_id) ++ c)) ∧
    (env.managerFor (dictGet ticket "Assigned Team") = none →
      (handleResolve env ticket ticket_id description lastInv args st).2.emails = st.emails) := by
  have h1 : (args.closure_type == "needs_approval") = true := by
    rw [hclosure]; decide
  have hupd := update_multiple_fields_success (t := st.table) env.now ticket_id
    [("Auto Solved", Value.bool (args.auto_solved.getD true)),
     ("AI Response", Value.str (args.ai_response.getD "Ticket processed by AI.")),
     ("Ticket Updated Date", Value.str env.today),
     ("Ticket Status", Value.str "Pending Manager Approval"),
     ("Admin Review Needed", Value.str "Yes")] hstd hmatch
  have hmain : handleResolve env ticket ticket_id description lastInv args st =
      (PyResult.ok ("Ticket " ++ ticket_id ++ ": " ++ args.closure_type),
       { table := { cols := st.table.cols,
                    rows := st.table.rows.map (umfRow st.table.cols env.now (pyStrip ticket_id)
                      [("Auto Solved", Value.bool (args.auto_solved.getD true)),
                       ("AI Response", Value.str (args.ai_response.getD "Ticket processed by AI.")),
                       ("Ticket Updated Date", Value.str env.today),
                       ("Ticket Status", Value.str "Pending Manager Approval"),
                       ("Admin Review Needed", Value.str "Yes")]) },
         emails := st.emails ++
           (match env.managerFor (dictGet ticket "Assigned Team") with
            | some mgr =>
              [{ to_email := mgr.2, subject := "[APPROVAL] Ticket " ++ ticket_id,
                 body := approval_email_body mgr.1 ticket_id
                   (dictGetD ticket "Assigned Team" (Value.str "N/A")).toStr description
                   (args.ai_response.getD "Ticket processed by AI.")
                   (env.baseUrl ++ "/ticket/approve/" ++ ticket_id ++ "?token=" ++
                     generate_approval_token env.hash env.secret ticket_id)
                   (env.baseUrl ++ "/ticket/reject/" ++ ticket_id ++ "?token=" ++
                     generate_approval_token env.hash env.secret ticket_id) }]
            | none => []),
         files := st.files }) := by
    unfold handleResolve resolve_branch
    simp only [h1, if_true, List.cons_append, List.nil_append, hupd, Option.isSome_none,
      Bool.and_false, Bool.false_and, Bool.false_eq_true, if_false, List.append_nil,
      Option.toList_none]
  have hTID : lastWrite
      [("Auto Solved", Value.bool (args.auto_solved.getD true)),
       ("AI Response", Value.str (args.ai_response.getD "Ticket processed by AI.")),
       ("Ticket Updated Date", Value.str env.today),
       ("Ticket Status", Value.str "Pending Manager Approval"),
       ("Admin Review Needed", Value.str "Yes")] "Ticket ID" = none := rfl
  obtain ⟨_, _, _, _, hTS, hARN, _⟩ := hasCol_of_stdCols hstd
  refine ⟨?_, ?_, ?_, ?_, ?_⟩
  · rw [hmain]
  · obtain ⟨row, hmem, hm⟩ := List.any_eq_true.mp hmatch
    rw [hmain]
    refine ⟨umfRow st.table.cols env.now (pyStrip ticket_id) _ row,
      List.mem_map_of_mem _ hmem, ?_⟩
    rw [umfRow_matches_iff hTID]
    exact hm
  · intro row' hmem' hm'
    rw [hmain] at hmem'
    obtain ⟨row, hmem, hrow'⟩ := List.mem_map.mp hmem'
    subst hrow'
    have hm : rowMatchesId st.table.cols (pyStrip ticket_id) row = true := by
      rw [← umfRow_matches_iff hTID]
      exact hm'
    have hlen : row.length = st.table.cols.length := by
      have := (List.all_eq_true.mp hwf) row hmem
      simpa using this
    constructor
    · rw [umfRow_other_col hm (by decide) hTS hlen]
      rfl
    · rw [umfRow_other_col hm (by decide) hARN hlen]
      rfl
  · intro mn me hmgr
    rw [hmain]
    simp only [hmgr]
    refine ⟨_, rfl, rfl, ?_⟩
    unfold approval_email_body
    exact ⟨_, _, _, rfl⟩
  · intro hnone
    rw [hmain]
    simp only [hnone, List.append_nil]

/-- C6 (witness): the theorem at the concrete approval fixture (manager
found), plus the manager-absent environment. -/
theorem C6_needs_approval_witness :
    ((handleResolve approvalEnv docTicket "T101" "d" none approvalArgs
      { table := docTable, emails := [], files := [] }).2.table.cols = docTable.cols) ∧
    (∃ row ∈ (handleResolve approvalEnv docTicket "T101" "d" none approvalArgs
      { table := docTable, emails := [], files := [] }).2.table.rows,
      rowMatchesId docTable.cols (pyStrip "T101") row = true) ∧
    (∀ row ∈ (handleResolve approvalEnv docTicket "T101" "d" none approvalArgs
      { table := docTable, emails := [], files := [] }).2.table.rows,
      rowMatchesId docTable.cols (pyStrip "T101") row = true →
      getCell docTable.cols row "Ticket Status" = Value.str "Pending Manager Approval" ∧
      getCell docTable.cols row "Admin Review Needed" = Value.str "Yes") ∧
    (∀ mn me, approvalEnv.managerFor (dictGet docTicket "Assigned Team") = some (mn, me) →
      ∃ e, (handleResolve approvalEnv docTicket "T101" "d" none approvalArgs
          { table := docTable, emails := [], files := [] }).2.emails = [] ++ [e] ∧
        e.to_email = me ∧
        (∃ a b c, e.body =
          a ++ (approvalEnv.baseUrl ++ "/ticket/approve/" ++ "T101" ++ "?token=" ++
            generate_approval_token approvalEnv.hash approvalEnv.secret "T101") ++
          b ++ (approvalEnv.baseUrl ++ "/ticket/reject/" ++ "T101" ++ "?token=" ++
            generate_approval_token approvalEnv.hash approvalEnv.secret "T101") ++ c)) ∧
    (approvalEnv.managerFor (dictGet docTicket "Assigned Team") = none →
      (handleResolve approvalEnv docTicket "T101" "d" none approvalArgs
        { table := docTable, emails := [], files := [] }).2.emails = []) :=
  C6_needs_approval_effects approvalEnv docTicket "T101" "d" none approvalArgs
    { table := docTable, emails := [], files := [] } rfl (by decide) (by decide) (by decide)

/-! ## Claim C4 -/

theorem any_of_fetch_some {t : Table} {tid : String} {record : Dict}
    (h : fetch_ticket_record t tid = some record) :
    t.rows.any (rowMatchesId t.cols (pyStrip tid)) = true := by
  unfold fetch_ticket_record at h
  cases hCol : hasCol t.cols "Ticket ID" with
  | false => rw [hCol] at h; simp at h
  | true =>
    rw [hCol] at h
    simp only [Bool.not_true, Bool.false_eq_true, if_false] at h
    cases hf : t.rows.find? (rowMatchesId t.cols (pyStrip tid)) with
    | none => rw [hf] at h; simp at h
    | some row =>
      exact List.any_eq_true.mpr
        ⟨row, List.mem_of_find?_eq_some hf, List.find?_some hf⟩

/-- C4: an approve request with a wrong token is rejected with a 403 and
no state change; with the valid token the matched ticket's status becomes
Closed, the auto-marker becomes manager-reviewed, the review flag becomes
No, a closed timestamp is stamped, and (the update having succeeded) one
resolution notification is attempted to the requester's directory email,
its body carrying the stored AI response. -/
theorem C4_approve_effects (env : Env) (ticket_id : String) (t : Table) (record : Dict)
    (reqEmail : String)
    (hstd : stdCols t = true) (hwf : wfRows t = true)
    (hccd : hasCol t.cols "Ticket Closed Date" = true)
    (hfetch : fetch_ticket_record t ticket_id = some record)
    (hreq : env.emailForName (dictGetD record "User Name" (Value.str "there")) = some reqEmail)
    (hai : (dictGetD record "AI Response" (Value.str "")).truthy = true) :
    (∀ token, validate_token env.hash env.secret ticket_id token = false →
      approve_ticket env ticket_id token t =
        ({ body := "Invalid or expired approval link.", code := 403 }, t, [])) ∧
    (∀ token, validate_token env.hash env.secret ticket_id token = true →
      (approve_ticket env ticket_id token t).1.code = 200 ∧
      (approve_ticket env ticket_id token t).2.1.cols = t.cols ∧
      (∃ row ∈ (approve_ticket env ticket_id token t).2.1.rows,
        rowMatchesId t.cols (pyStrip ticket_id) row = true) ∧
      (∀ row ∈ (approve_ticket env ticket_id token t).2.1.rows,
        rowMatchesId t.cols (pyStrip ticket_id) row = true →
        getCell t.cols row "Ticket Status" = Value.str "Closed" ∧
        getCell t.cols row "Auto Solved" = Value.str AUTO_STATUS_MANAGER_REVIEWED ∧
        getCell t.cols row "Admin Review Needed" = Value.str "No" ∧
        getCell t.cols row "Ticket Closed Date" = Value.str env.now) ∧
      (∃ e, (approve_ticket env ticket_id token t).2.2 = [e] ∧ e.to_email = reqEmail ∧
        ∃ a b, e.body = a ++ (dictGetD record "AI Response" (Value.str "")).toStr ++ b)) := by
  constructor
  · intro token hv
    unfold approve_ticket
    rw [hv]
    rfl
  · intro token hv
    have hmatch := any_of_fetch_some hfetch
    have hupd := update_multiple_fields_success (t := t) env.now ticket_id
      [("Ticket Status", Value.str "Closed"),
       ("Auto Solved", Value.str AUTO_STATUS_MANAGER_REVIEWED),
       ("Admin Review Needed", Value.str "No"),
       ("Ticket Closed Date", Value.str env.now)] hstd hmatch
    have hmain : approve_ticket env ticket_id token t =
        ({ body := "Ticket " ++ ticket_id ++ " Approved", code := 200 },
         { cols := t.cols,
           rows := t.rows.map (umfRow t.cols env.now (pyStrip ticket_id)
             [("Ticket Status", Value.str "Closed"),
              ("Auto Solved", Value.str AUTO_STATUS_MANAGER_REVIEWED),
              ("Admin Review Needed", Value.str "No"),
              ("Ticket Closed Date", Value.str env.now)]) },
         [{ to_email := reqEmail,
            subject := "Ticket " ++ (dictGetD record "Ticket ID" (Value.str "N/A")).toStr ++
              " Resolved",
            body := resolution_email_body
              (dictGetD record "User Name" (Value.str "there")).toStr
              (dictGetD record "AI Response" (Value.str "")).toStr
              (dictGetD record "Ticket ID" (Value.str "N/A")).toStr }]) := by
      unfold approve_ticket send_requester_resolution_email
      simp only [hv, Bool.not_true, Bool.false_eq_true, if_false, hfetch, hupd, if_true,
        hreq, hai]
    have hTID : lastWrite
        [("Ticket Status", Value.str "Closed"),
         ("Auto Solved", Value.str AUTO_STATUS_MANAGER_REVIEWED),
         ("Admin Review Needed", Value.str "No"),
         ("Ticket Closed Date", Value.str env.now)] "Ticket ID" = none := rfl
    obtain ⟨_, _, hAS, _, hTS, hARN, _⟩ := hasCol_of_stdCols hstd
    refine ⟨by rw [hmain], by rw [hmain], ?_, ?_, ?_⟩
    · obtain ⟨row, hmem, hm⟩ := List.any_eq_true.mp hmatch
      rw [hmain]
      refine ⟨umfRow t.cols env.now (pyStrip ticket_id) _ row,
        List.mem_map_of_mem _ hmem, ?_⟩
      rw [umfRow_matches_iff hTID]
      exact hm
    · intro row' hmem' hm'
      rw [hmain] at hmem'
      obtain ⟨row, hmem, hrow'⟩ := List.mem_map.mp hmem'
      subst hrow'
      have hm : rowMatchesId t.cols (pyStrip ticket_id) row = true := by
        rw [← umfRow_matches_iff hTID]
        exact hm'
      have hlen : row.length = t.cols.length := by
        have := (List.all_eq_true.mp hwf) row hmem
        simpa using this
      refine ⟨?_, ?_, ?_, ?_⟩
      · rw [umfRow_other_col hm (by decide) hTS hlen]; rfl
      · rw [umfRow_other_col hm (by decide) hAS hlen]; rfl
      · rw [umfRow_other_col hm (by decide) hARN hlen]; rfl
      · rw [umfRow_other_col hm (by decide) hccd hlen]; rfl
    · rw [hmain]
      refine ⟨_, rfl, rfl, ?_⟩
      unfold resolution_email_body
      exact ⟨_, _, rfl⟩

/-- C4 (witness): the theorem at the concrete pending ticket, applied
with a tampered and with the minted token. -/
theorem C4_approve_witness :
    approve_ticket gatewayEnv "T7" (some "tampered") pendingTable =
      ({ body := "Invalid or expired approval link.", code := 403 }, pendingTable, []) ∧
    ((approve_ticket gatewayEnv "T7"
        (some (generate_approval_token gatewayEnv.hash gatewayEnv.secret "T7"))
        pendingTable).1.code = 200 ∧
      (approve_ticket gatewayEnv "T7"
        (some (generate_approval_token gatewayEnv.hash gatewayEnv.secret "T7"))
        pendingTable).2.1.cols = pendingTable.cols ∧
      (∃ row ∈ (approve_ticket gatewayEnv "T7"
          (some (generate_approval_token gatewayEnv.hash gatewayEnv.secret "T7"))
          pendingTable).2.1.rows,
        rowMatchesId pendingTable.cols (pyStrip "T7") row = true) ∧
      (∀ row ∈ (approve_ticket gatewayEnv "T7"
          (some (generate_approval_token gatewayEnv.hash gatewayEnv.secret "T7"))
          pendingTable).2.1.rows,
        rowMatchesId pendingTable.cols (pyStrip "T7") row = true →
        getCell pendingTable.cols row "Ticket Status" = Value.str "Closed" ∧
        getCell pendingTable.cols row "Auto Solved" =
          Value.str AUTO_STATUS_MANAGER_REVIEWED ∧
        getCell pendingTable.cols row "Admin Review Needed" = Value.str "No" ∧
        getCell pendingTable.cols row "Ticket Closed Date" = Value.str gatewayEnv.now) ∧
      (∃ e, (approve_ticket gatewayEnv "T7"
          (some (generate_approval_token gatewayEnv.hash gatewayEnv.secret "T7"))
          pendingTable).2.2 = [e] ∧ e.to_email = "bob@ey.com" ∧
        ∃ a b, e.body =
          a ++ (dictGetD pendingRecord "AI Response" (Value.str "")).toStr ++ b)) :=
  ⟨(C4_approve_effects gatewayEnv "T7" pendingTable pendingRecord "bob@ey.com"
      (by decide) (by decide) (by decide) (by decide) (by decide) (by decide)).1
      (some "tampered") (by decide),
   (C4_approve_effects gatewayEnv "T7" pendingTable pendingRecord "bob@ey.com"
      (by decide) (by decide) (by decide) (by decide) (by decide) (by decide)).2
      (some (generate_approval_token gatewayEnv.hash gatewayEnv.secret "T7")) (by decide)⟩

/-! ## Claim C5 -/

/-- The single-ticket balancer either leaves the sheet unchanged (no
candidates, or no matching ticket) or applies exactly a `User Name`
update through `update_multiple_fields`. -/
theorem auto_assign_single_ticket_table_cases (env : Env) (t : Table) (tid : String)
    (hstd : stdCols t = true) :
    (auto_assign_single_ticket env t tid).2 = t ∨
    ∃ u, (auto_assign_single_ticket env t tid).2 =
      { cols := t.cols,
        rows := t.rows.map (umfRow t.cols env.now (pyStrip tid) [("User Name", u)]) } := by
  obtain ⟨_, _, _, _, hTS, _, hUN⟩ := hasCol_of_stdCols hstd
  unfold auto_assign_single_ticket
  simp only [hUN, hTS, Bool.not_true, Bool.or_self, Bool.false_eq_true, if_false]
  by_cases hu : (dedupFirst ((t.rows.map (fun r => getCell t.cols r "User Name")).filter
      (fun v => !(v == Value.na)))).isEmpty = true
  · simp only [hu, if_true]
    exact Or.inl trivial
  · simp only [hu, Bool.false_eq_true, if_false]
    cases hmin : minByFirst
        ((dedupFirst ((t.rows.map (fun r => getCell t.cols r "User Name")).filter
          (fun v => !(v == Value.na)))).map (fun u =>
            (u, (t.rows.filter (fun r =>
              getCell t.cols r "User Name" == u &&
              pyLower (getCell t.cols r "Ticket Status").toStr == "open")).length))) with
    | none =>
      simp only [hmin]
      exact Or.inl trivial
    | some u =>
      simp only [hmin]
      cases hm : t.rows.any (rowMatchesId t.cols (pyStrip tid)) with
      | false =>
        have hno := update_multiple_fields_no_match (t := t) env.now tid
          [("User Name", u)] hstd hm
        simp only [hno]
        exact Or.inl trivial
      | true =>
        have hyes := update_multiple_fields_success (t := t) env.now tid
          [("User Name", u)] hstd hm
        simp only [hyes]
        exact Or.inr ⟨u, rfl⟩

/-- C5: a reject request carrying the valid token for a stored
Pending-Manager-Approval ticket attempts exactly one Workload Balancer
call and leaves the ticket's status Open (the balancer only rewrites the
assignee and the update timestamp). -/
theorem C5_reject_reassign (env : Env) (ticket_id : String) (t : Table)
    (hstd : stdCols t = true) (hwf : wfRows t = true)
    (hmatch : t.rows.any (rowMatchesId t.cols (pyStrip ticket_id)) = true)
    (_hpending : ∀ row ∈ t.rows, rowMatchesId t.cols (pyStrip ticket_id) row = true →
      getCell t.cols row "Ticket Status" = Value.str "Pending Manager Approval") :
    (reject_ticket env ticket_id
      (some (generate_approval_token env.hash env.secret ticket_id)) t).2.2 = 1 ∧
    (reject_ticket env ticket_id
      (some (generate_approval_token env.hash env.secret ticket_id)) t).2.1.cols = t.cols ∧
    (∃ row ∈ (reject_ticket env ticket_id
        (some (generate_approval_token env.hash env.secret ticket_id)) t).2.1.rows,
      rowMatchesId t.cols (pyStrip ticket_id) row = true) ∧
    (∀ row ∈ (reject_ticket env ticket_id
        (some (generate_approval_token env.hash env.secret ticket_id)) t).2.1.rows,
      rowMatchesId t.cols (pyStrip ticket_id) row = true →
      getCell t.cols row "Ticket Status" = Value.str "Open") := by
  have hv : validate_token env.hash env.secret ticket_id
      (some (generate_approval_token env.hash env.secret ticket_id)) = true := by
    simp [validate_token]
  have hupd := update_multiple_fields_success (t := t) env.now ticket_id
    [("Ticket Status", Value.str "Open"),
     ("Auto Solved", Value.str AUTO_STATUS_MANAGER_REVIEWED),
     ("Admin Review Needed", Value.str "No")] hstd hmatch
  have hTID : lastWrite
      [("Ticket Status", Value.str "Open"),
       ("Auto Solved", Value.str AUTO_STATUS_MANAGER_REVIEWED),
       ("Admin Review Needed", Value.str "No")] "Ticket ID" = none := rfl
  have hTID2 : ∀ u : Value, lastWrite [("User Name", u)] "Ticket ID" = none := fun _ => rfl
  obtain ⟨_, _, _, _, hTS, _, _⟩ := hasCol_of_stdCols hstd
  -- the intermediate sheet written by the reject update
  have hstatus' : ∀ row ∈ (t.rows.map (umfRow t.cols env.now (pyStrip ticket_id)
      [("Ticket Status", Value.str "Open"),
       ("Auto Solved", Value.str AUTO_STATUS_MANAGER_REVIEWED),
       ("Admin Review Needed", Value.str "No")])),
      rowMatchesId t.cols (pyStrip ticket_id) row = true →
      getCell t.cols row "Ticket Status" = Value.str "Open" := by
    intro row' hmem' hm'
    obtain ⟨row, hmem, hrow'⟩ := List.mem_map.mp hmem'
    subst hrow'
    have hm : rowMatchesId t.cols (pyStrip ticket_id) row = true := by
      rw [← umfRow_matches_iff hTID]
      exact hm'
    have hlen : row.length = t.cols.length := by
      have := (List.all_eq_true.mp hwf) row hmem
      simpa using this
    rw [umfRow_other_col hm (by decide) hTS hlen]
    rfl
  have hex' : ∃ row ∈ (t.rows.map (umfRow t.cols env.now (pyStrip ticket_id)
      [("Ticket Status", Value.str "Open"),
       ("Auto Solved", Value.str AUTO_STATUS_MANAGER_REVIEWED),
       ("Admin Review Needed", Value.str "No")])),
      rowMatchesId t.cols (pyStrip ticket_id) row = true := by
    obtain ⟨row, hmem, hm⟩ := List.any_eq_true.mp hmatch
    refine ⟨_, List.mem_map_of_mem _ hmem, ?_⟩
    rw [umfRow_matches_iff hTID]
    exact hm
  have h21 : (reject_ticket env ticket_id
      (some (generate_approval_token env.hash env.secret ticket_id)) t).2.1 =
      (auto_assign_single_ticket env
        { cols := t.cols,
          rows := t.rows.map (umfRow t.cols env.now (pyStrip ticket_id)
            [("Ticket Status", Value.str "Open"),
             ("Auto Solved", Value.str AUTO_STATUS_MANAGER_REVIEWED),
             ("Admin Review Needed", Value.str "No")]) } ticket_id).2 := by
    unfold reject_ticket
    simp only [hv, if_true, hupd, Bool.not_true, Bool.false_eq_true, if_false]
    rcases (auto_assign_single_ticket env
      { cols := t.cols,
        rows := t.rows.map (umfRow t.cols env.now (pyStrip ticket_id)
          [("Ticket Status", Value.str "Open"),
           ("Auto Solved", Value.str AUTO_STATUS_MANAGER_REVIEWED),
           ("Admin Review Needed", Value.str "No")]) } ticket_id).1 with _ | u <;> rfl
  have h22 : (reject_ticket env ticket_id
      (some (generate_approval_token env.hash env.secret ticket_id)) t).2.2 = 1 := by
    unfold reject_ticket
    simp only [hv, if_true, hupd, Bool.not_true, Bool.false_eq_true, if_false]
    rcases (auto_assign_single_ticket env
      { cols := t.cols,
        rows := t.rows.map (umfRow t.cols env.now (pyStrip ticket_id)
          [("Ticket Status", Value.str "Open"),
           ("Auto Solved", Value.str AUTO_STATUS_MANAGER_REVIEWED),
           ("Admin Review Needed", Value.str "No")]) } ticket_id).1 with _ | u <;> rfl
  rcases auto_assign_single_ticket_table_cases env
      { cols := t.cols,
        rows := t.rows.map (umfRow t.cols env.now (pyStrip ticket_id)
          [("Ticket Status", Value.str "Open"),
           ("Auto Solved", Value.str AUTO_STATUS_MANAGER_REVIEWED),
           ("Admin Review Needed", Value.str "No")]) } ticket_id
      (stdCols_mk_of t _ hstd) with hA | ⟨u, hA⟩
  · refine ⟨h22, ?_, ?_, ?_⟩
    · rw [h21, hA]
    · rw [h21, hA]
      exact hex'
    · rw [h21, hA]
      exact hstatus'
  · refine ⟨h22, ?_, ?_, ?_⟩
    · rw [h21, hA]
    · rw [h21, hA]
      obtain ⟨row, hmem, hm⟩ := hex'
      refine ⟨_, List.mem_map_of_mem _ hmem, ?_⟩
      rw [umfRow_matches_iff (hTID2 u)]
      exact hm
    · rw [h21, hA]
      intro row' hmem' hm'
      obtain ⟨row, hmem, hrow'⟩ := List.mem_map.mp hmem'
      subst hrow'
      have hm : rowMatchesId t.cols (pyStrip ticket_id) row = true := by
        rw [← umfRow_matches_iff (hTID2 u)]
        exact hm'
      rw [umfRow_untouched_col (by decide) (by exact rfl)]
      exact hstatus' row hmem hm

/-- C5 (witness): the theorem at the concrete pending ticket with the
minted token. -/
theorem C5_reject_witness :
    (reject_ticket gatewayEnv "T7"
      (some (generate_approval_token gatewayEnv.hash gatewayEnv.secret "T7"))
      pendingTable).2.2 = 1 ∧
    (reject_ticket gatewayEnv "T7"
      (some (generate_approval_token gatewayEnv.hash gatewayEnv.secret "T7"))
      pendingTable).2.1.cols = pendingTable.cols ∧
    (∃ row ∈ (reject_ticket gatewayEnv "T7"
        (some (generate_approval_token gatewayEnv.hash gatewayEnv.secret "T7"))
        pendingTable).2.1.rows,
      rowMatchesId pendingTable.cols (pyStrip "T7") row = true) ∧
    (∀ row ∈ (reject_ticket gatewayEnv "T7"
        (some (generate_approval_token gatewayEnv.hash gatewayEnv.secret "T7"))
        pendingTable).2.1.rows,
      rowMatchesId pendingTable.cols (pyStrip "T7") row = true →
      getCell pendingTable.cols row "Ticket Status" = Value.str "Open") :=
  C5_reject_reassign gatewayEnv "T7" pendingTable (by decide) (by decide) (by decide)
    (by decide)

/-! ## Claim C8 -/

/-- C8 (counterexample): on the pool {a, b} with initial open-counts a:0
and b:2 and two open tickets, the endpoint assigns T2 to a but T3 to b
(round-robin over the once-sorted candidate list), while the claimed
current-lowest-workload-with-increment policy would assign both to a;
the first assigned ticket does go to a. -/
theorem C8_counterexample :
    auto_assign_tickets_pairs bulkTable =
      [(Value.str "T2", Value.str "a"), (Value.str "T3", Value.str "b")] ∧
    spec_bulk_assign_pairs bulkTable =
      [(Value.str "T2", Value.str "a"), (Value.str "T3", Value.str "a")] := by
  refine ⟨rfl, rfl⟩

theorem insertionSort_head_min (l : List (Value × Nat)) (p : Value × Nat)
    (hhead : (List.insertionSort keyLe l).head? = some p) :
    ∀ q ∈ l, p.2 ≤ q.2 := by
  intro q hq
  have hs := List.sorted_insertionSort keyLe l
  have hmem : q ∈ List.insertionSort keyLe l := (List.perm_insertionSort keyLe l).mem_iff.mpr hq
  cases hsort : List.insertionSort keyLe l with
  | nil => rw [hsort] at hhead; simp at hhead
  | cons hd tl =>
    rw [hsort] at hhead hmem hs
    have hp : hd = p := by simpa using hhead
    subst hp
    rcases hmem with _ | hmem'
    · exact Nat.le_refl _
    · exact (List.sorted_cons.mp hs).1 q (by assumption)

/-- C8 (amended): the bulk endpoint builds the workload map once, sorts
the candidates by initial open-count once (stably), and assigns the i-th
open ticket to `sorted_users[i % n]`; the recorded in-memory increment is
never consulted again.  In particular the first assigned ticket goes to
the head of the sorted list, a candidate of minimal initial open-count —
`a` in the a:0 / b:2 scenario. -/
theorem C8_amended_round_robin (t : Table)
    (hne : ticket_assignee_values t ≠ []) :
    (∀ i row, (open_rows t).get? i = some row →
      (auto_assign_tickets_pairs t).get? i =
        some (getCell t.cols row "Ticket ID",
          (sorted_users t).getD (i % (sorted_users t).length) Value.na)) ∧
    (∀ p, (List.insertionSort keyLe (workload_pairs t)).head? = some p →
      ∀ q ∈ workload_pairs t, p.2 ≤ q.2) := by
  constructor
  · intro i row hrow
    have hopens : (open_rows t).isEmpty = false := by
      cases h : open_rows t with
      | nil => rw [h] at hrow; simp at hrow
      | cons a as => rfl
    have husers : (ticket_assignee_values t).isEmpty = false := by
      cases h : ticket_assignee_values t with
      | nil => exact absurd h hne
      | cons a as => rfl
    unfold auto_assign_tickets_pairs
    simp only [hopens, husers, Bool.false_eq_true, if_false]
    rw [List.get?_eq_getElem?] at hrow
    rw [List.get?_eq_getElem?, List.getElem?_map, List.getElem?_enum, hrow]
    rfl
  · exact insertionSort_head_min (workload_pairs t)

/-- C8 (witness): the amended statement at the concrete a:0 / b:2
sheet. -/
theorem C8_amended_witness :
    (∀ i row, (open_rows bulkTable).get? i = some row →
      (auto_assign_tickets_pairs bulkTable).get? i =
        some (getCell bulkTable.cols row "Ticket ID",
          (sorted_users bulkTable).getD (i % (sorted_users bulkTable).length) Value.na)) ∧
    (∀ p, (List.insertionSort keyLe (workload_pairs bulkTable)).head? = some p →
      ∀ q ∈ workload_pairs bulkTable, p.2 ≤ q.2) :=
  C8_amended_round_robin bulkTable (by decide)

end QMA
